import Mathlib

/-!
Verification of the epochly-backend transcript-retrieval pipeline
(`app/services/youtube_service.py`, `app/services/transcript_service.py`,
`app/main.py`) against its natural-language specification.

The Python code is shallowly embedded: pure string manipulation is
translated to executable Lean functions on `List Char` / `String`;
every external interaction (the captions service, the pytube library,
the mirror HTTP APIs, page scraping, the SQL database) is represented
by an explicit environment record `Env` describing the outcome the
outside world would give to each call the code can make, so the whole
pipeline becomes a deterministic function of the environment.  Each
embedded function also produces the list of data-source consultations
(`Step`) that the corresponding Python code would perform, so that
claims about tier ordering and about "zero network calls" are statable.
-/

/-! ### String primitives

Python's `pat in s`, `s.find(pat)`, slicing, `s.strip()` and
`s.split(sep)` are modelled on `List Char` (Python strings index by
code point, as `List Char` does). -/

/-- First index at which `pat` occurs in `l`, Python `s.find(pat)`
(with `none` for `-1`).  `s.find("") = 0`, as in Python. -/
def subFind (l pat : List Char) : Option Nat :=
  if pat.isPrefixOf l then some 0
  else
    match l with
    | [] => none
    | _ :: t => (subFind t pat).map (· + 1)

/-- Python `pat in s`. -/
def containsSub (l pat : List Char) : Bool :=
  (subFind l pat).isSome

/-- An occurrence found by `subFind` lies inside the string. -/
theorem subFind_some_bound {l pat : List Char} {i : Nat} (h : subFind l pat = some i) :
    i + pat.length ≤ l.length := by
  induction l generalizing i with
  | nil =>
    rw [subFind] at h
    split at h
    · next hp =>
      rw [List.isPrefixOf_iff_prefix] at hp
      have h2 := hp.length_le
      have h3 : i = 0 := by simpa using h.symm
      simp only [List.length_nil] at h2 ⊢
      omega
    · simp at h
  | cons c t ih =>
    rw [subFind] at h
    split at h
    · next hp =>
      rw [List.isPrefixOf_iff_prefix] at hp
      have := hp.length_le
      simp at h
      omega
    · simp only [Option.map_eq_some'] at h
      obtain ⟨j, hj, hi⟩ := h
      have := ih hj
      simp only [List.length_cons]
      omega

/-- Python `s[:s.find(c)] if c in s else s` — everything up to the first
occurrence of the one-character separator `c`, or all of `l`. -/
def clipTo (l : List Char) (c : Char) : List Char :=
  match subFind l [c] with
  | some j => l.take j
  | none => l

/-- The character class of the regex `[a-zA-Z0-9_-]` used by
`extract_video_id`'s fallback pattern (ASCII letters and digits,
underscore, hyphen). -/
def idChar (c : Char) : Bool :=
  c.isAlpha || c.isDigit || c == '_' || c == '-'

/-! ### `extract_video_id` (youtube_service.py lines 50-126)

The positional branches are an `if`/`elif` chain; a branch whose token
is not 11 characters long falls through to the regex, not to the next
positional branch. -/

/-- Marker `"youtu.be/"` as a character list. -/
def mShort : List Char := ['y', 'o', 'u', 't', 'u', '.', 'b', 'e', '/']

/-- Marker `"youtube.com/watch"` (the containment test of the watch branch). -/
def mWatch : List Char :=
  ['y', 'o', 'u', 't', 'u', 'b', 'e', '.', 'c', 'o', 'm', '/', 'w', 'a', 't', 'c', 'h']

/-- Marker `"v="`. -/
def mVeq : List Char := ['v', '=']

/-- Marker `"youtube.com/embed/"`. -/
def mEmbed : List Char :=
  ['y', 'o', 'u', 't', 'u', 'b', 'e', '.', 'c', 'o', 'm', '/', 'e', 'm', 'b', 'e', 'd', '/']

/-- Marker `"youtube.com/watch?v="`, the first alternative of the regex. -/
def mWatchFull : List Char :=
  ['y', 'o', 'u', 't', 'u', 'b', 'e', '.', 'c', 'o', 'm', '/', 'w', 'a', 't', 'c', 'h', '?', 'v', '=']

/-- The `if`/`elif` positional parse of `extract_video_id` (lines 62-108):
the token cut out of the URL by the first branch whose containment test
matches, before the length-11 check.  `none` when no branch's test matches. -/
def extractPositional (url : List Char) : Option (List Char) :=
  match subFind url mShort with
  | some i => some (clipTo (url.drop (i + mShort.length)) '?')
  | none =>
    match subFind url mWatch, subFind url mVeq with
    | some _, some j => some (clipTo (url.drop (j + mVeq.length)) '&')
    | _, _ =>
      match subFind url mEmbed with
      | some i => some (clipTo (url.drop (i + mEmbed.length)) '?')
      | none => none

/-- One attempt of the fallback regex
`(?:youtube\.com\/watch\?v=|youtu\.be\/|youtube\.com\/embed\/)([a-zA-Z0-9_-]{11})`
at a fixed start position: `l` is the suffix of the URL beginning there.
The three alternatives are tried in order (they are mutually exclusive:
no two markers can match at the same position). -/
def regexAttemptAt (l : List Char) : Option (List Char) :=
  tryMarker mWatchFull <|> tryMarker mShort <|> tryMarker mEmbed
where
  tryMarker (m : List Char) : Option (List Char) :=
    if m.isPrefixOf l then
      let tok := (l.drop m.length).take 11
      if tok.length = 11 && tok.all idChar then some tok else none
    else none

/-- `re.search` for the fallback pattern: scan start positions left to
right, return the capture group of the first position that matches. -/
def regexSearch : List Char → Option (List Char)
  | [] => regexAttemptAt []
  | l@(_ :: t) =>
    match regexAttemptAt l with
    | some tok => some tok
    | none => regexSearch t

/-- The message of the `ValueError` that `extract_video_id` raises when
nothing matched (the inner raise at line 122 rewrapped by the handler at
line 126). -/
def invalidUrlMsg : String :=
  "Invalid YouTube URL format: Failed to extract video ID from URL"

/-- Errors a modelled Python function can raise. -/
inductive PyErr where
  /-- `TranscriptsDisabled` from youtube_transcript_api. -/
  | transcriptsDisabled
  /-- `NoTranscriptFound` from youtube_transcript_api. -/
  | noTranscriptFound
  /-- `ValueError(msg)`. -/
  | valueError (msg : String)
  /-- any other exception, carrying `str(e)`. -/
  | otherExn (msg : String)
deriving DecidableEq, Repr

/-- `extract_video_id` (lines 50-126): positional parse, length-11
check, regex fallback, `ValueError` when both fail. -/
def extract_video_id (url : String) : Except PyErr String :=
  match extractPositional url.data with
  | some tok =>
    if tok.length = 11 then Except.ok (String.mk tok)
    else
      match regexSearch url.data with
      | some tok2 => Except.ok (String.mk tok2)
      | none => Except.error (PyErr.valueError invalidUrlMsg)
  | none =>
    match regexSearch url.data with
    | some tok2 => Except.ok (String.mk tok2)
    | none => Except.error (PyErr.valueError invalidUrlMsg)

/-! ### The static transcript cache (youtube_service.py lines 14-29)

The five entries of `CACHED_TRANSCRIPTS`, with their full texts
(apostrophes written as the escape `\x27`). -/

/-- The cached transcript text for video id iCvmsMzlF7o (CACHED_TRANSCRIPTS in youtube_service.py). -/
def cachedBrene : String :=
  "The connection that we make in vulnerability, it is... I call it \x27the birthplace\x27. The birthplace of joy, of creativity, of belonging, of love. And I think it\x27s why we\x27re here. We want to experience love and belonging, we want to be creative. This is why we are here. For me, the difficult part is the teaching part. It\x27s easier for me to come in as a researcher, say \"Here\x27s what it looks like, and I\x27m sorry, but I don\x27t know how to help you build it.\" Because the very foundation of vulnerability is that there\x27s no equation, there\x27s no template. So I took a step back and said \"You know what, I\x27m going to put out the PhD, I\x27m going to put some of the data aside, and I\x27m going to think about what this means from a really personal place.\" I am a researcher, but I am also a storyteller. Because I believe that the most important stories are the messy, honest ones. The ones about living with uncertainty and being brave enough to show we are imperfect."

/-- The cached transcript text for video id Yocja_N5s1I (CACHED_TRANSCRIPTS in youtube_service.py). -/
def cachedCrash : String :=
  "Hi, I\x27m John Green, this is Crash Course World History, and today we\x27re going to discuss the invention of agriculture and its implications for human existence! Mr. Green, Mr. Green, I thought this was going to be boring, but then you just told me that agriculture was invented. That\x27s amazing. You truly are a genius, Mr. Green. Actually, no, past John Green, agriculture wasn\x27t \"invented,\" it\x27s not like a light switch that was flipped on. What happened was, for thousands of years, humans gradually cultivated plants and animals until they eventually became dependent on cultivated food sources. It\x27s pretty complicated. So let\x27s begin thousands of years ago, when all humans were hunting and gathering in order to stay alive. The foraging lifestyle worked OK, but it was tremendously susceptible to catastrophe, especially environmental stresses like droughts, because you\x27re surviving on what you can find."

/-- The cached transcript text for video id bBC-nXj3Ng4 (CACHED_TRANSCRIPTS in youtube_service.py). -/
def cachedBitcoin : String :=
  "Let\x27s walk through an exercise: Suppose I have some digital asset, and I want to give it to you. It could be a digital image, a digital document, the digital rights to a song—in general, any string of ones and zeros that I want to transfer to you. One option is to use email or some other communication channel, and to attach the 1\x27s and 0\x27s that make up that asset. But this will run into a problem. What\x27s to prevent me from later giving that same digital asset to someone else? After all, I still have a copy of that file. This is the digital equivalent of writing you a check for $100, and then writing another $100 check to someone else, when I only have $100 in my account. It\x27s what\x27s known as the \x27double spending problem.\x27 The standard solution is to use a trusted third party, like a bank. In the case of the check, I entrust Bank of America to store my money."

/-- The cached transcript text for video id riXcZT2ICjA (CACHED_TRANSCRIPTS in youtube_service.py). -/
def cachedKhan : String :=
  "So today we\x27re going to introduce one of the big, big, big ideas in calculus, which is the limit. Now, the limit is the foundation for derivatives, integrals, and all the other things we talk about in calculus. But to understand limits, let\x27s look at an example. What is the value of y when x equals 2 for the function y equals (x² - 4) / (x - 2)? Let\x27s see... when we plug in x = 2, we get (2² - 4) / (2 - 2), which is 0/0, which is undefined. But what if we ask, what is y approaching as x approaches 2? If we look at values of x that are close to 2 but not equal to 2, like 1.9, 1.99, 1.999 or 2.1, 2.01, 2.001, we get values for y that approach 4. So even though the function is undefined at x = 2, the limit of the function as x approaches 2 is 4."

/-- The cached transcript text for video id ZizdB0TgAVM (CACHED_TRANSCRIPTS in youtube_service.py). -/
def cachedYale : String :=
  "Welcome to the Science of Well-Being. I\x27m Professor Laurie Santos, and I teach psychology at Yale University. In this course, we\x27ll explore what psychological science says about happiness. What makes us happy? Why do we want the things we think will make us happy? Are we actually wrong in the things that we think will make us happy? And how can we use the science to short-circuit the biases we have to actually be happier? At some level, the structure of the course is loosely based on a class I teach at Yale called \x27Psychology and the Good Life\x27. It\x27s a bit of positive psychology, which is the psychology of what makes life worth living, but also a bit of the latest research on behavior change, how to change your habits for the better."

def CACHED_TRANSCRIPTS : List (String × String) := [
  ("iCvmsMzlF7o", cachedBrene),
  ("Yocja_N5s1I", cachedCrash),
  ("bBC-nXj3Ng4", cachedBitcoin),
  ("riXcZT2ICjA", cachedKhan),
  ("ZizdB0TgAVM", cachedYale)]

/-- `video_id in CACHED_TRANSCRIPTS` / `CACHED_TRANSCRIPTS[video_id]`
(youtube_service.py lines 391-396). -/
def cacheLookup (vid : String) : Option String :=
  (CACHED_TRANSCRIPTS.find? (fun p => p.1 == vid)).map (fun p => p.2)

/-! ### Environment: outcomes of the external world

Every call the pipeline can make to the outside world is represented by
one field describing what that call would produce for the one video id
of the request.  The code is then a deterministic function of `Env`. -/

/-- Outcome of one `YouTubeTranscriptApi` interaction
(`get_transcript(...)`, or `list_transcripts` + `next` + `fetch`):
either a list of caption segments — of which the code only ever reads
the `text` field, so a segment is represented by that string — or an
exception. -/
inductive ApiOutcome where
  /-- the call returned this list of segment texts. -/
  | ok (segs : List String)
  /-- the call raised `TranscriptsDisabled`. -/
  | disabled
  /-- the call raised `NoTranscriptFound`. -/
  | notFound
  /-- the call raised some other exception with message `msg`. -/
  | exn (msg : String)
deriving DecidableEq, Repr

/-- Did the interaction succeed? -/
def ApiOutcome.isOk : ApiOutcome → Bool
  | .ok _ => true
  | _ => false

/-- Outcome of one mirror-API HTTP request
(youtube_service.py lines 334-346): `ok text` means the request returned
status 200 with a JSON body, and `text` is the result of this mirror's
`extract` function on the parsed body (those extractors are total on
JSON objects; a body shape that would make them raise is covered by
`exn`). -/
inductive MirrorOutcome where
  /-- `requests.get` (or the field extraction) raised, message `msg`. -/
  | exn (msg : String)
  /-- the response had a non-200 status code. -/
  | badStatus (code : Nat)
  /-- the body was not valid JSON (`json.JSONDecodeError`). -/
  | badJson
  /-- parsed and extracted caption text. -/
  | ok (text : String)
deriving DecidableEq, Repr

/-- The world as seen by one call of the pipeline. -/
structure Env where
  /-- `PYTUBE_AVAILABLE` (import-time flag, line 32-36). -/
  pytubeAvailable : Bool
  /-- `BEAUTIFULSOUP_AVAILABLE` (import-time flag, line 40-45). -/
  bs4Available : Bool
  /-- outcome of `YouTubeTranscriptApi.get_transcript(video_id)` (line 401). -/
  primaryDefault : ApiOutcome
  /-- outcome of `YouTubeTranscriptApi.get_transcript(video_id, languages=["en"])` (line 424). -/
  primaryEn : ApiOutcome
  /-- outcome of `list_transcripts` + `next(iter(...))` + `fetch()` (lines 446-449). -/
  primaryListing : ApiOutcome
  /-- pytube (lines 136-188): `ok parts` is the list of cleaned caption
  strings obtained from the `<text>...</text>` XML entries after entity
  decoding; `error msg` is any exception raised while building the
  `YouTube` object, listing captions or parsing (`str(e)`). -/
  pytubeParts : Except String (List String)
  /-- outcome of the `tube.demarches.tech` request. -/
  mirror1 : MirrorOutcome
  /-- outcome of the `inv.bp.mutahar.rocks` request. -/
  mirror2 : MirrorOutcome
  /-- outcome of the `vid.puffyan.us` request. -/
  mirror3 : MirrorOutcome
  /-- scraping page fetch (lines 220-232): `ok code` is the final HTTP
  status, `error msg` means both request attempts raised. -/
  scrapePage : Except String Nat
  /-- text pieces accumulated from the caption-track XML scan of the
  fetched page (lines 242-273); `[]` when no `captionTracks` marker or
  no caption text was found. -/
  scrapeCaptionParts : List String
  /-- text pieces of the `segment-text` div fallback scan (lines 280-283). -/
  scrapeSegParts : List String
deriving Repr

/-- One consultation of a data source performed by the pipeline. -/
inductive Step where
  /-- the in-memory `CACHED_TRANSCRIPTS` lookup (no network). -/
  | cacheCheck
  /-- `YouTubeTranscriptApi.get_transcript(video_id)`. -/
  | primaryDefault
  /-- `YouTubeTranscriptApi.get_transcript(video_id, languages=["en"])`. -/
  | primaryEn
  /-- `YouTubeTranscriptApi.list_transcripts(video_id)` + fetch. -/
  | primaryListing
  /-- the pytube fetch. -/
  | pytubeFetch
  /-- one mirror API request, by mirror name. -/
  | mirrorQuery (name : String)
  /-- the page-scraping fetch. -/
  | scrapeFetch
deriving DecidableEq, Repr

/-- Is this step a network access?  Only the static-cache check is not. -/
def Step.isNetwork : Step → Bool
  | .cacheCheck => false
  | _ => true

/-! ### Segment concatenation -/

/-- The accumulation pattern `transcript_text += entry["text"] + " "`
(lines 405-407 and elsewhere). -/
def concatSegs (texts : List String) : String :=
  texts.foldl (fun acc t => acc ++ t ++ " ") ""

/-- Strip whitespace from both ends of a character list. -/
def stripL (l : List Char) : List Char :=
  ((l.dropWhile Char.isWhitespace).reverse.dropWhile Char.isWhitespace).reverse

/-- Python `s.strip()` (both ends; ASCII whitespace). -/
def pyStrip (s : String) : String :=
  String.mk (stripL s.data)

/-- Concatenate segment texts and strip, the code's complete join step
(lines 405-410). -/
def joinStrip (texts : List String) : String :=
  pyStrip (concatSegs texts)

/-! ### pytube tier (youtube_service.py lines 128-198) -/

/-- `get_transcript_with_pytube`: the network fetch and XML split are
summarised by `env.pytubeParts`; availability guard, the join, the
50-character quality check and the uniform `ValueError` rewrapping
(lines 196-198) are embedded. -/
def get_transcript_with_pytube (env : Env) : List Step × Except PyErr String :=
  if env.pytubeAvailable = false then
    ([], Except.error (PyErr.valueError "pytube library not available"))
  else
    match env.pytubeParts with
    | Except.error m =>
      ([Step.pytubeFetch], Except.error (PyErr.valueError ("pytube error: " ++ m)))
    | Except.ok parts =>
      let t := joinStrip parts
      if t == "" || t.length < 50 then
        ([Step.pytubeFetch],
         Except.error (PyErr.valueError "pytube error: Retrieved transcript is too short or empty"))
      else
        ([Step.pytubeFetch], Except.ok t)

/-! ### Scraping tier (youtube_service.py lines 200-295) -/

/-- `get_transcript_by_scraping`: page fetch, caption-XML text
accumulation, `segment-text` div fallback, 50-character checks, and the
wrapping of every failure into
`ValueError("Failed to extract transcript via web scraping: ...")`. -/
def get_transcript_by_scraping (env : Env) : List Step × Except PyErr String :=
  if env.bs4Available = false then
    ([], Except.error (PyErr.valueError "BeautifulSoup library not available for web scraping"))
  else
    match env.scrapePage with
    | Except.error m =>
      ([Step.scrapeFetch],
       Except.error (PyErr.valueError ("Failed to extract transcript via web scraping: " ++ m)))
    | Except.ok code =>
      if code ≠ 200 then
        ([Step.scrapeFetch],
         Except.error (PyErr.valueError
           ("Failed to extract transcript via web scraping: Failed to fetch YouTube page: "
             ++ toString code)))
      else
        let t1 := pyStrip (concatSegs env.scrapeCaptionParts)
        let t2 :=
          if t1 == "" || t1.length < 50 then
            env.scrapeSegParts.foldl (fun acc s => acc ++ s ++ " ") t1
          else t1
        let t3 := pyStrip t2
        if t3 == "" || t3.length < 50 then
          ([Step.scrapeFetch],
           Except.error (PyErr.valueError
             "Failed to extract transcript via web scraping: Could not extract transcript via web scraping"))
        else
          ([Step.scrapeFetch], Except.ok t3)

/-! ### Mirror tier (youtube_service.py lines 297-371) -/

/-- Python `str(last_error)` in the final failure message: `str(None)`
is the literal `"None"`. -/
def strOfLastError : Option String → String
  | none => "None"
  | some m => m

/-- The `for api in apis` loop (lines 329-358): walks the mirror
descriptors in order, skipping non-200 responses, bad JSON and
extracted text below the 50-character threshold; `last_error` is only
updated by the `except Exception` arm, exactly as in the source.
Returns (steps performed, first accepted text if any, final last_error). -/
def mirrorLoop : List (String × MirrorOutcome) → Option String →
    List Step × Option String × Option String
  | [], lastErr => ([], none, lastErr)
  | (name, out) :: rest, lastErr =>
    match out with
    | MirrorOutcome.exn m =>
      let (s, r, l) := mirrorLoop rest (some m)
      (Step.mirrorQuery name :: s, r, l)
    | MirrorOutcome.badStatus _ =>
      let (s, r, l) := mirrorLoop rest lastErr
      (Step.mirrorQuery name :: s, r, l)
    | MirrorOutcome.badJson =>
      let (s, r, l) := mirrorLoop rest lastErr
      (Step.mirrorQuery name :: s, r, l)
    | MirrorOutcome.ok t =>
      if t == "" || t.length < 50 then
        let (s, r, l) := mirrorLoop rest lastErr
        (Step.mirrorQuery name :: s, r, l)
      else
        ([Step.mirrorQuery name], some t, lastErr)

/-- The fixed mirror descriptor list (lines 301-317), paired with the
environment's outcome for each. -/
def apisOf (env : Env) : List (String × MirrorOutcome) :=
  [("tube.demarches.tech", env.mirror1),
   ("inv.bp.mutahar.rocks", env.mirror2),
   ("vid.puffyan.us", env.mirror3)]

/-- `get_transcript_with_alternative_api` (lines 297-371): pytube first
when available, then the mirror loop, then scraping when available,
else the final `ValueError` whose message carries `last_error` from the
mirror loop only. -/
def get_transcript_with_alternative_api (env : Env) : List Step × Except PyErr String :=
  let pt : List Step × Option (Except PyErr String) :=
    if env.pytubeAvailable then
      let (s, r) := get_transcript_with_pytube env
      (s, some r)
    else ([], none)
  match pt with
  | (ps, some (Except.ok t)) => (ps, Except.ok t)
  | (ps, _) =>
    let (ms, mres, lastErr) := mirrorLoop (apisOf env) none
    match mres with
    | some t => (ps ++ ms, Except.ok t)
    | none =>
      if env.bs4Available then
        let (ss, sr) := get_transcript_by_scraping env
        match sr with
        | Except.ok t => (ps ++ ms ++ ss, Except.ok t)
        | Except.error _ =>
          (ps ++ ms ++ ss, Except.error (PyErr.valueError
            ("All alternative APIs and fallbacks failed. Last error: " ++ strOfLastError lastErr)))
      else
        (ps ++ ms, Except.error (PyErr.valueError
          ("All alternative APIs and fallbacks failed. Last error: " ++ strOfLastError lastErr)))

/-! ### The orchestrator `get_youtube_transcript` (lines 373-514) -/

/-- The constant message of the `ValueError` raised at line 478 when the
whole cascade is exhausted. -/
def exhaustedMsg : String :=
  "No transcript available for this video after all attempts. This video likely doesn\x27t have captions enabled."

/-- Message of the (dead) outer `TranscriptsDisabled` handler, line 492. -/
def disabledMsg : String :=
  "Transcripts are disabled for this video and alternative methods failed."

/-- Message of the (dead) outer `NoTranscriptFound` handler, line 506. -/
def notFoundMsg : String :=
  "No transcript found for this video. It might not have captions available."

/-- `str(e)` of a modelled exception, used only by the outermost generic
rewrap (line 514, unreachable from the embedded cascade). -/
def PyErr.msg : PyErr → String
  | .transcriptsDisabled => "TranscriptsDisabled"
  | .noTranscriptFound => "NoTranscriptFound"
  | .valueError m => m
  | .otherExn m => m

/-- The nested `try`/`except Exception` chain of lines 398-478: default
fetch, `en` fetch, all-tracks listing, then the alternative-API cascade,
then the line-478 `ValueError`.  Every exception of an attempt — the
structural `TranscriptsDisabled`/`NoTranscriptFound` included, since
they are subclasses of `Exception` — is caught by the corresponding
`except Exception` arm and drives the next attempt. -/
def cascade (env : Env) (vid : String) : List Step × Except PyErr (String × String) :=
  match env.primaryDefault with
  | ApiOutcome.ok segs => ([Step.primaryDefault], Except.ok (joinStrip segs, vid))
  | _ =>
    match env.primaryEn with
    | ApiOutcome.ok segs =>
      ([Step.primaryDefault, Step.primaryEn], Except.ok (joinStrip segs, vid))
    | _ =>
      match env.primaryListing with
      | ApiOutcome.ok segs =>
        ([Step.primaryDefault, Step.primaryEn, Step.primaryListing],
         Except.ok (joinStrip segs, vid))
      | _ =>
        let (s, r) := get_transcript_with_alternative_api env
        match r with
        | Except.ok t =>
          (Step.primaryDefault :: Step.primaryEn :: Step.primaryListing :: s,
           Except.ok (t, vid))
        | Except.error _ =>
          (Step.primaryDefault :: Step.primaryEn :: Step.primaryListing :: s,
           Except.error (PyErr.valueError exhaustedMsg))

/-- Body of the outermost `try` of `get_youtube_transcript` (lines
386-478): extraction, cache check, cascade.  The first component is the
value of the `video_id` local variable at the point an exception would
escape (`none` only when extraction itself raised). -/
def gytBody (env : Env) (url : String) : Option String × List Step × Except PyErr (String × String) :=
  match extract_video_id url with
  | Except.error e => (none, [], Except.error e)
  | Except.ok vid =>
    match cacheLookup vid with
    | some t => (some vid, [Step.cacheCheck], Except.ok (t, vid))
    | none =>
      let (s, r) := cascade env vid
      (some vid, Step.cacheCheck :: s, r)

/-- `get_youtube_transcript` (lines 373-514), outer handler chain
included.  The `TranscriptsDisabled` / `NoTranscriptFound` handlers
(lines 480-506) re-run the alternative cascade and surface dedicated
messages; they are embedded as written even though the inner
`except Exception` arms make them unreachable (`gyt_errors_only` below).
In the unreachable case where `video_id` was never assigned Python
would pass `None` around; the embedding uses `""` there. -/
def get_youtube_transcript (env : Env) (url : String) : List Step × Except PyErr (String × String) :=
  match gytBody env url with
  | (_, s, Except.ok r) => (s, Except.ok r)
  | (vid?, s, Except.error PyErr.transcriptsDisabled) =>
    let vid := vid?.getD ""
    let (s2, r2) := get_transcript_with_alternative_api env
    (match r2 with
     | Except.ok t => (s ++ s2, Except.ok (t, vid))
     | Except.error _ => (s ++ s2, Except.error (PyErr.valueError disabledMsg)))
  | (vid?, s, Except.error PyErr.noTranscriptFound) =>
    let vid := vid?.getD ""
    let (s2, r2) := get_transcript_with_alternative_api env
    (match r2 with
     | Except.ok t => (s ++ s2, Except.ok (t, vid))
     | Except.error _ => (s ++ s2, Except.error (PyErr.valueError notFoundMsg)))
  | (_, s, Except.error (PyErr.valueError m)) => (s, Except.error (PyErr.valueError m))
  | (_, s, Except.error (PyErr.otherExn m)) =>
    (s, Except.error (PyErr.valueError ("Error fetching transcript: " ++ PyErr.msg (PyErr.otherExn m))))

/-! ### User-contributed transcripts (transcript_service.py) and the
`/api/transcript` endpoint (main.py lines 110-163) -/

/-- One row of the `transcripts` table, the fields the modelled code
reads. -/
structure DbTranscript where
  /-- primary key. -/
  id : String
  /-- the video the contribution is for. -/
  video_id : String
  /-- the contributed text. -/
  transcript_text : String
  /-- upvote counter. -/
  upvotes : Int
  /-- moderation flag; only approved rows are served. -/
  is_approved : Bool
deriving DecidableEq, Repr

/-- The filter of `get_transcript_by_video_id` (lines 74-77):
approved rows for this video id, in table order. -/
def approvedFor (db : List DbTranscript) (vid : String) : List DbTranscript :=
  db.filter (fun t => t.video_id == vid && t.is_approved)

/-- `get_transcript_by_video_id` (transcript_service.py lines 61-99):
`ORDER BY upvotes DESC` + `.first()` is modelled as the earliest row
among those with maximal upvotes (SQL leaves the order of ties
unspecified; SQLite preserves scan order, which this fold reproduces). -/
def get_transcript_by_video_id (db : List DbTranscript) (vid : String) : Option DbTranscript :=
  match approvedFor db vid with
  | [] => none
  | h :: rest => some (rest.foldl (fun best x => if best.upvotes < x.upvotes then x else best) h)

/-- Fuel-driven worker for `afterLast`: repeatedly jump past the next
occurrence of `pat`.  Each step of Python's left-to-right
non-overlapping split consumes at least one character, so `l.length`
steps of fuel always suffice. -/
def afterLastFuel : Nat → List Char → List Char → List Char
  | 0, l, _ => l
  | fuel + 1, l, pat =>
    match subFind l pat with
    | none => l
    | some i => afterLastFuel fuel (l.drop (i + pat.length)) pat

/-- Suffix of `l` after the last occurrence of `pat`
(Python `s.split(pat)[-1]`; whole string when `pat` does not occur). -/
def afterLast (l pat : List Char) : List Char :=
  if pat.isEmpty then l else afterLastFuel l.length l pat

/-- Prefix of `l` before the first occurrence of `pat`
(Python `s.split(pat)[0]`; whole string when `pat` does not occur). -/
def beforeFirst (l pat : List Char) : List Char :=
  match subFind l pat with
  | none => l
  | some i => l.take i

/-- The ad-hoc id re-derivation of `/api/transcript` (main.py line 125):
`url.split("v=")[-1].split("&")[0] if "v=" in url else
url.split("/")[-1].split("?")[0]` — a plain string split with no length
or charset validation, independent of `extract_video_id`. -/
def videoIdDerive (url : List Char) : List Char :=
  if containsSub url mVeq then beforeFirst (afterLast url mVeq) ['&']
  else beforeFirst (afterLast url ['/']) ['?']

/-- The response model of `/api/transcript` (main.py lines 58-62), for
requests without `instructions` (so `summary` stays `None` and is
omitted here). -/
structure TranscriptResponse where
  /-- the `success` flag of the response. -/
  success : Bool
  /-- the transcript text served. -/
  transcript : String
  /-- the video id the response reports. -/
  video_id : String
deriving DecidableEq, Repr

/-- The `fetch_transcript` endpoint body (main.py lines 116-157) for a
request without `instructions`: try `get_youtube_transcript`; on
`ValueError` re-derive an id by `videoIdDerive` and serve the best
approved user contribution if the database has one, otherwise re-raise
the original error.  (The surrounding HTTP layer then maps a
`ValueError` to status 400.) -/
def fetch_transcript (env : Env) (db : List DbTranscript) (url : String) :
    Except PyErr TranscriptResponse :=
  match get_youtube_transcript env url with
  | (_, Except.ok (t, vid)) => Except.ok ⟨true, t, vid⟩
  | (_, Except.error e) =>
    match e with
    | PyErr.valueError m =>
      let vid := String.mk (videoIdDerive url.data)
      match get_transcript_by_video_id db vid with
      | some dbt => Except.ok ⟨true, dbt.transcript_text, vid⟩
      | none => Except.error (PyErr.valueError m)
    | e2 => Except.error e2

/-! ### Occurrence lemmas for `subFind` -/

/-- `subFind` returns the index of an occurrence that nothing precedes. -/
theorem subFind_eq_some_of {l pat : List Char} {n : Nat}
    (h1 : pat.isPrefixOf (l.drop n))
    (h2 : ∀ m < n, ¬ pat.isPrefixOf (l.drop m)) :
    subFind l pat = some n := by
  induction n generalizing l with
  | zero =>
    rw [List.drop_zero] at h1
    rw [subFind.eq_def, if_pos h1]
  | succ n ih =>
    have h0 : ¬ pat.isPrefixOf l := by
      have := h2 0 (Nat.succ_pos n)
      simpa using this
    rw [subFind.eq_def, if_neg h0]
    cases l with
    | nil =>
      exfalso
      simp only [List.drop_nil] at h1
      rw [List.isPrefixOf_iff_prefix] at h1
      have : pat = [] := List.prefix_nil.mp h1
      apply h0
      rw [this]
      simp [List.isPrefixOf_iff_prefix]
    | cons c t =>
      have ht : subFind t pat = some n := by
        apply ih
        · simpa [List.drop_succ_cons] using h1
        · intro m hm
          have := h2 (m + 1) (Nat.succ_lt_succ hm)
          simpa [List.drop_succ_cons] using this
      simp [ht]

/-- If `pat` occurs nowhere in `l`, `subFind` finds nothing. -/
theorem subFind_eq_none_of {l pat : List Char}
    (h : ∀ m, ¬ pat.isPrefixOf (l.drop m)) :
    subFind l pat = none := by
  induction l with
  | nil =>
    have h0 : ¬ pat.isPrefixOf ([] : List Char) := by simpa using h 0
    rw [subFind, if_neg h0]
  | cons c t ih =>
    have h0 : ¬ pat.isPrefixOf (c :: t) := by simpa using h 0
    rw [subFind, if_neg h0]
    have ht : subFind t pat = none := by
      apply ih
      intro m
      simpa [List.drop_succ_cons] using h (m + 1)
    simp [ht]

/-- Conversely, `subFind … = none` rules out every occurrence. -/
theorem not_occ_of_subFind_none {l pat : List Char}
    (h : subFind l pat = none) :
    ∀ m, ¬ pat.isPrefixOf (l.drop m) := by
  induction l with
  | nil =>
    intro m hp
    rw [subFind] at h
    split at h
    · exact Option.noConfusion h
    · next hnp =>
      simp only [List.drop_nil] at hp
      exact hnp hp
  | cons c t ih =>
    rw [subFind] at h
    split at h
    · exact fun m _ => Option.noConfusion h
    · next hnp =>
      simp only [Option.map_eq_none'] at h
      intro m
      cases m with
      | zero => simpa using hnp
      | succ m => simpa [List.drop_succ_cons] using ih h m

/-- A pattern does not start at a position where some offset disagrees. -/
theorem not_occ_at {url pat : List Char} (m j : Nat) (hj : j < pat.length)
    (hne : ∀ h : m + j < url.length, url.get ⟨m + j, h⟩ ≠ pat.get ⟨j, hj⟩) :
    ¬ pat.isPrefixOf (url.drop m) := by
  intro hp
  rw [List.isPrefixOf_iff_prefix] at hp
  have hlen := hp.length_le
  rw [List.length_drop] at hlen
  have hju : m + j < url.length := by omega
  have hget : pat.get ⟨j, hj⟩ = url.get ⟨m + j, hju⟩ := by
    have h1 := hp.getElem hj
    simp only [List.get_eq_getElem]
    rw [h1, List.getElem_drop]
  exact hne hju hget.symm

/-- Occurrences of a pattern containing a character `c` at offset `j`
are confined to start positions `m` with `m + j < k`, provided `c`
appears nowhere in `url` at or after index `k`. -/
theorem no_occ_of_forbidden {url pat : List Char} {c : Char} {j : Nat}
    (hj : j < pat.length) (hpc : pat.get ⟨j, hj⟩ = c) (k : Nat)
    (hsafe : ∀ i, ∀ h : i < url.length, k ≤ i → url.get ⟨i, h⟩ ≠ c)
    (hlow : ∀ m, m + j < k → ¬ pat.isPrefixOf (url.drop m)) :
    ∀ m, ¬ pat.isPrefixOf (url.drop m) := by
  intro m
  by_cases hm : m + j < k
  · exact hlow m hm
  · apply not_occ_at m j hj
    intro h
    rw [hpc]
    exact hsafe (m + j) h (Nat.le_of_not_lt hm)

/-! ### Properties of the regex fallback -/

/-- A token produced by one regex alternative is 11 characters of the
`[a-zA-Z0-9_-]` class. -/
theorem tryMarker_spec {l m tok : List Char}
    (h : regexAttemptAt.tryMarker l m = some tok) :
    tok.length = 11 ∧ tok.all idChar = true := by
  unfold regexAttemptAt.tryMarker at h
  split at h
  · simp only [] at h
    split at h
    · next hc =>
      injection h with h
      subst h
      simpa using hc
    · exact Option.noConfusion h
  · exact Option.noConfusion h

/-- A token produced by the regex attempt at one position is 11
characters of the class. -/
theorem regexAttemptAt_spec {l tok : List Char}
    (h : regexAttemptAt l = some tok) :
    tok.length = 11 ∧ tok.all idChar = true := by
  unfold regexAttemptAt at h
  cases h1 : regexAttemptAt.tryMarker l mWatchFull with
  | some t1 =>
    rw [h1] at h
    simp only [Option.some_orElse] at h
    injection h with h
    subst h
    exact tryMarker_spec h1
  | none =>
    rw [h1] at h
    simp only [Option.none_orElse] at h
    cases h2 : regexAttemptAt.tryMarker l mShort with
    | some t2 =>
      rw [h2] at h
      simp only [Option.some_orElse] at h
      injection h with h
      subst h
      exact tryMarker_spec h2
    | none =>
      rw [h2] at h
      simp only [Option.none_orElse] at h
      exact tryMarker_spec h

/-- Every capture group `regexSearch` can return is 11 characters of
the class. -/
theorem regexSearch_spec {l tok : List Char}
    (h : regexSearch l = some tok) :
    tok.length = 11 ∧ tok.all idChar = true := by
  induction l with
  | nil =>
    rw [regexSearch] at h
    exact regexAttemptAt_spec h
  | cons c t ih =>
    rw [regexSearch] at h
    split at h
    · next heq =>
      injection h with h
      subst h
      exact regexAttemptAt_spec heq
    · exact ih h

/-- **C7.** For every URL that matches none of the recognized shapes,
or whose matched substring is not exactly 11 characters — that is, the
positional `if`/`elif` parse produces no 11-character token and the
fallback regex matches nothing — `extract_video_id` raises the
`InvalidURL` condition (the `ValueError` with message `invalidUrlMsg`)
rather than returning any identifier. -/
theorem c7_unmatched_url_raises_invalid (url : String)
    (hpos : (extractPositional url.data).all (fun tok => tok.length != 11) = true)
    (hre : regexSearch url.data = none) :
    extract_video_id url = Except.error (PyErr.valueError invalidUrlMsg) := by
  unfold extract_video_id
  cases hp : extractPositional url.data with
  | none => rw [hre]
  | some tok =>
    rw [hp] at hpos
    have hne : tok.length ≠ 11 := by simpa using hpos
    simp only [if_neg hne, hre]

/-- Witness for C7: a URL with none of the three shapes. -/
theorem c7_unmatched_url_raises_invalid_witness :
    extract_video_id "https://example.com/page" = Except.error (PyErr.valueError invalidUrlMsg) :=
  c7_unmatched_url_raises_invalid "https://example.com/page" (by decide) (by decide)

/-- **C9 counterexample.** The positional branches validate only the
length, not the charset: the short-link URL
`https://youtu.be/abc def ghi` carries an 11-character token containing
spaces, and `extract_video_id` returns it unchanged even though it is
not charset-valid. -/
theorem c9_positional_token_not_charset_checked :
    extract_video_id "https://youtu.be/abc def ghi" = Except.ok "abc def ghi" ∧
    ("abc def ghi" : String).data.all idChar = false := by
  exact ⟨by rfl, by decide⟩

/-- **C9 amended.** Every identifier `extract_video_id` returns has
length exactly 11, and identifiers produced by the regex fallback —
i.e. whenever the positional parse yielded no 11-character token —
contain only characters of the `[a-zA-Z0-9_-]` class; a token from a
positional branch, however, is validated for length only. -/
theorem c9_extract_ok_length_and_regex_charset (url id : String)
    (h : extract_video_id url = Except.ok id) :
    id.length = 11 ∧
    ((extractPositional url.data).all (fun tok => tok.length != 11) = true →
      id.data.all idChar = true) := by
  unfold extract_video_id at h
  revert h
  cases hp : extractPositional url.data with
  | some tok =>
    intro h
    dsimp only [] at h
    by_cases h11 : tok.length = 11
    · rw [if_pos h11] at h
      injection h with h
      constructor
      · rw [← h]; exact h11
      · intro hall
        have : tok.length ≠ 11 := by simpa using hall
        exact absurd h11 this
    · rw [if_neg h11] at h
      cases hr : regexSearch url.data with
      | none => rw [hr] at h; exact Except.noConfusion h
      | some tok2 =>
        rw [hr] at h
        injection h with h
        obtain ⟨hl, hc⟩ := regexSearch_spec hr
        subst h
        exact ⟨hl, fun _ => hc⟩
  | none =>
    intro h
    dsimp only [] at h
    cases hr : regexSearch url.data with
    | none => rw [hr] at h; exact Except.noConfusion h
    | some tok2 =>
      rw [hr] at h
      injection h with h
      obtain ⟨hl, hc⟩ := regexSearch_spec hr
      subst h
      exact ⟨hl, fun _ => hc⟩

/-- Witness for the amended C9: a 12-character short-link token falls
through to the regex, which returns its charset-valid 11-character
prefix. -/
theorem c9_extract_ok_length_and_regex_charset_witness :
    ("abcdefghijk" : String).length = 11 ∧
    ((extractPositional "https://youtu.be/abcdefghijkl".data).all
        (fun tok => tok.length != 11) = true →
      ("abcdefghijk" : String).data.all idChar = true) :=
  c9_extract_ok_length_and_regex_charset "https://youtu.be/abcdefghijkl" "abcdefghijk" (by rfl)

/-! ### The join step equals the spec's single-space join -/

/-- Modelled from the spec: "full_text is the ordered, single-space-joined
concatenation of all CaptionSegment texts ..., trimmed of leading/trailing
whitespace" — the joining part, on character lists. -/
def spaceJoin : List (List Char) → List Char
  | [] => []
  | [s] => s
  | s :: rest => s ++ [' '] ++ spaceJoin rest

/-- Modelled from the spec: the single-space-joined, whitespace-trimmed
concatenation of segment texts. -/
def specJoin (texts : List String) : String :=
  String.mk (stripL (spaceJoin (texts.map String.data)))

/-- `String.append` concatenates the character lists. -/
theorem sdata_append (a b : String) : (a ++ b).data = a.data ++ b.data := rfl

/-- The fold of `acc += t + " "` produces the flattened list of
space-terminated segment texts. -/
theorem concatSegs_fold (l : List String) (a : String) :
    (l.foldl (fun acc t => acc ++ t ++ " ") a).data =
      a.data ++ (l.map (fun s => s.data ++ [' '])).flatten := by
  induction l generalizing a with
  | nil => simp
  | cons s rest ih =>
    simp only [List.foldl_cons, List.map_cons, List.flatten_cons]
    rw [ih]
    simp [sdata_append, List.append_assoc]

/-- Space-terminated flattening is the single-space join plus one
trailing space (nonempty case). -/
theorem flatten_spaceJoin (ls : List (List Char)) (h : ls ≠ []) :
    (ls.map (fun s => s ++ [' '])).flatten = spaceJoin ls ++ [' '] := by
  induction ls with
  | nil => exact absurd rfl h
  | cons s rest ih =>
    cases rest with
    | nil => simp [spaceJoin]
    | cons r rest2 =>
      rw [List.map_cons, List.flatten_cons]
      rw [ih (by simp)]
      rw [show spaceJoin (s :: r :: rest2) = s ++ [' '] ++ spaceJoin (r :: rest2) from rfl]
      simp [List.append_assoc]

/-- Stripping ignores one trailing space. -/
theorem stripL_append_space (x : List Char) : stripL (x ++ [' ']) = stripL x := by
  unfold stripL
  rw [List.dropWhile_append]
  by_cases hx : (x.dropWhile Char.isWhitespace).isEmpty
  · simp only [hx, if_true]
    rw [List.isEmpty_iff] at hx
    rw [hx]
    simp [List.dropWhile]
  · have hx2 : (x.dropWhile Char.isWhitespace).isEmpty = false := by simpa using hx
    simp [hx2, List.reverse_append, List.dropWhile_cons,
      show Char.isWhitespace ' ' = true from rfl]

/-- The code's join-and-strip equals the spec's single-space-joined,
trimmed concatenation. -/
theorem joinStrip_eq_specJoin (l : List String) : joinStrip l = specJoin l := by
  unfold joinStrip pyStrip concatSegs specJoin
  cases l with
  | nil => rfl
  | cons s rest =>
    have h1 := concatSegs_fold (s :: rest) ""
    congr 1
    rw [h1]
    simp only [List.nil_append]
    rw [show ((s :: rest).map (fun t => t.data ++ [' '])) =
          (((s :: rest).map String.data).map (fun d => d ++ [' '])) by simp]
    rw [flatten_spaceJoin _ (by simp)]
    exact stripL_append_space _

/-! ### Unfolding lemmas for the cascade -/

/-- Passing a successful body through the outer handler chain. -/
theorem gyt_pass_ok {env : Env} {url : String} {v : Option String}
    {s : List Step} {r : String × String}
    (h : gytBody env url = (v, s, Except.ok r)) :
    get_youtube_transcript env url = (s, Except.ok r) := by
  unfold get_youtube_transcript
  rw [h]

/-- Passing a `ValueError` through the outer handler chain: the
`except ValueError: raise` arm re-raises it unchanged. -/
theorem gyt_pass_valueError {env : Env} {url : String} {v : Option String}
    {s : List Step} {m : String}
    (h : gytBody env url = (v, s, Except.error (PyErr.valueError m))) :
    get_youtube_transcript env url = (s, Except.error (PyErr.valueError m)) := by
  unfold get_youtube_transcript
  rw [h]

/-- Cache-hit body. -/
theorem gytBody_cache_hit (env : Env) {url id t : String}
    (hx : extract_video_id url = Except.ok id)
    (hc : cacheLookup id = some t) :
    gytBody env url = (some id, [Step.cacheCheck], Except.ok (t, id)) := by
  unfold gytBody
  rw [hx]
  dsimp only []
  rw [hc]

/-- Cache-miss body runs the cascade. -/
theorem gytBody_cache_miss (env : Env) {url id : String}
    (hx : extract_video_id url = Except.ok id)
    (hc : cacheLookup id = none) :
    gytBody env url =
      (some id, Step.cacheCheck :: (cascade env id).1, (cascade env id).2) := by
  unfold gytBody
  rw [hx]
  dsimp only []
  rw [hc]

/-- Cascade, first attempt succeeds. -/
theorem cascade_default_ok {env : Env} (vid : String) {segs : List String}
    (h : env.primaryDefault = ApiOutcome.ok segs) :
    cascade env vid = ([Step.primaryDefault], Except.ok (joinStrip segs, vid)) := by
  unfold cascade
  rw [h]

/-- Cascade, first attempt raises and the `en` attempt succeeds. -/
theorem cascade_en_ok {env : Env} (vid : String) {segs : List String}
    (h0 : env.primaryDefault.isOk = false)
    (h : env.primaryEn = ApiOutcome.ok segs) :
    cascade env vid =
      ([Step.primaryDefault, Step.primaryEn], Except.ok (joinStrip segs, vid)) := by
  unfold cascade
  cases hd : env.primaryDefault with
  | ok s => rw [hd] at h0; simp [ApiOutcome.isOk] at h0
  | disabled => rw [h]
  | notFound => rw [h]
  | exn m => rw [h]

/-- Cascade, first two attempts raise and the listing attempt succeeds. -/
theorem cascade_listing_ok {env : Env} (vid : String) {segs : List String}
    (h0 : env.primaryDefault.isOk = false)
    (h1 : env.primaryEn.isOk = false)
    (h : env.primaryListing = ApiOutcome.ok segs) :
    cascade env vid =
      ([Step.primaryDefault, Step.primaryEn, Step.primaryListing],
       Except.ok (joinStrip segs, vid)) := by
  unfold cascade
  cases hd : env.primaryDefault with
  | ok s => rw [hd] at h0; simp [ApiOutcome.isOk] at h0
  | disabled =>
    cases he : env.primaryEn with
    | ok s => rw [he] at h1; simp [ApiOutcome.isOk] at h1
    | disabled => rw [h]
    | notFound => rw [h]
    | exn m => rw [h]
  | notFound =>
    cases he : env.primaryEn with
    | ok s => rw [he] at h1; simp [ApiOutcome.isOk] at h1
    | disabled => rw [h]
    | notFound => rw [h]
    | exn m => rw [h]
  | exn m0 =>
    cases he : env.primaryEn with
    | ok s => rw [he] at h1; simp [ApiOutcome.isOk] at h1
    | disabled => rw [h]
    | notFound => rw [h]
    | exn m => rw [h]

/-- Cascade, all three primary attempts raise and the alternative
cascade succeeds. -/
theorem cascade_alt_ok {env : Env} (vid : String) {asteps : List Step} {t : String}
    (h0 : env.primaryDefault.isOk = false)
    (h1 : env.primaryEn.isOk = false)
    (h2 : env.primaryListing.isOk = false)
    (hga : get_transcript_with_alternative_api env = (asteps, Except.ok t)) :
    cascade env vid =
      (Step.primaryDefault :: Step.primaryEn :: Step.primaryListing :: asteps,
       Except.ok (t, vid)) := by
  unfold cascade
  cases hd : env.primaryDefault <;>
    first
      | (rw [hd] at h0; simp [ApiOutcome.isOk] at h0; done)
      | (cases he : env.primaryEn <;>
          first
            | (rw [he] at h1; simp [ApiOutcome.isOk] at h1; done)
            | (cases hl : env.primaryListing <;>
                first
                  | (rw [hl] at h2; simp [ApiOutcome.isOk] at h2; done)
                  | rw [hga]))

/-- Cascade, all three primary attempts raise and the alternative
cascade also fails: the line-478 `ValueError` is raised. -/
theorem cascade_alt_err {env : Env} (vid : String) {asteps : List Step} {e : PyErr}
    (h0 : env.primaryDefault.isOk = false)
    (h1 : env.primaryEn.isOk = false)
    (h2 : env.primaryListing.isOk = false)
    (hga : get_transcript_with_alternative_api env = (asteps, Except.error e)) :
    cascade env vid =
      (Step.primaryDefault :: Step.primaryEn :: Step.primaryListing :: asteps,
       Except.error (PyErr.valueError exhaustedMsg)) := by
  unfold cascade
  cases hd : env.primaryDefault <;>
    first
      | (rw [hd] at h0; simp [ApiOutcome.isOk] at h0; done)
      | (cases he : env.primaryEn <;>
          first
            | (rw [he] at h1; simp [ApiOutcome.isOk] at h1; done)
            | (cases hl : env.primaryListing <;>
                first
                  | (rw [hl] at h2; simp [ApiOutcome.isOk] at h2; done)
                  | rw [hga]))

/-- A fully failing, fully offline world, used to instantiate theorems
at concrete inputs. -/
def envFail : Env :=
  { pytubeAvailable := false
    bs4Available := false
    primaryDefault := ApiOutcome.exn "offline"
    primaryEn := ApiOutcome.exn "offline"
    primaryListing := ApiOutcome.exn "offline"
    pytubeParts := Except.error "offline"
    mirror1 := MirrorOutcome.exn "offline"
    mirror2 := MirrorOutcome.exn "offline"
    mirror3 := MirrorOutcome.exn "offline"
    scrapePage := Except.error "offline"
    scrapeCaptionParts := []
    scrapeSegParts := [] }

/-- **C3.** For every environment (hence independently of any network
behaviour) and every URL whose extracted 11-character identifier is a
key of the static cache, `get_youtube_transcript` returns exactly the
pair of the cached text and that identifier, and the only data-source
consultation it performs is the in-memory cache check — zero network
calls. -/
theorem c3_cache_hit_no_network (env : Env) (url id t : String)
    (hx : extract_video_id url = Except.ok id)
    (hc : cacheLookup id = some t) :
    get_youtube_transcript env url = ([Step.cacheCheck], Except.ok (t, id)) ∧
    (get_youtube_transcript env url).1.all (fun s => !s.isNetwork) = true := by
  have hb := gytBody_cache_hit env hx hc
  have hg := gyt_pass_ok hb
  exact ⟨hg, by rw [hg]; rfl⟩

/-- Witness for C3: the Brené Brown cache entry, in the offline world. -/
theorem c3_cache_hit_no_network_witness :
    get_youtube_transcript envFail "https://youtu.be/iCvmsMzlF7o" =
      ([Step.cacheCheck], Except.ok (cachedBrene, "iCvmsMzlF7o")) ∧
    (get_youtube_transcript envFail "https://youtu.be/iCvmsMzlF7o").1.all
      (fun s => !s.isNetwork) = true :=
  c3_cache_hit_no_network envFail "https://youtu.be/iCvmsMzlF7o" "iCvmsMzlF7o" cachedBrene
    (by rfl) (by rfl)

/-- **C5.** If the identifier is valid and not cached, the primary
default-parameters fetch raises, and the explicit `en`-language fetch
succeeds with some list of caption segments, then
`get_youtube_transcript` returns the single-space-joined,
whitespace-trimmed concatenation of those segments' texts (`specJoin`),
and the enumerate-all-tracks sub-attempt is never invoked (its step is
absent from the performed consultations). -/
theorem c5_en_fetch_result (env : Env) (url id : String) (segs : List String)
    (hx : extract_video_id url = Except.ok id)
    (hc : cacheLookup id = none)
    (h0 : env.primaryDefault.isOk = false)
    (he : env.primaryEn = ApiOutcome.ok segs) :
    get_youtube_transcript env url =
      ([Step.cacheCheck, Step.primaryDefault, Step.primaryEn],
       Except.ok (specJoin segs, id)) ∧
    Step.primaryListing ∉ (get_youtube_transcript env url).1 := by
  have hcas := cascade_en_ok id h0 he
  have hb := gytBody_cache_miss env hx hc
  rw [hcas] at hb
  have hg := gyt_pass_ok hb
  rw [joinStrip_eq_specJoin] at hg
  refine ⟨hg, ?_⟩
  rw [hg]
  simp

/-- Witness for C5: uncached id, default fetch raises, `en` fetch
returns two segments. -/
theorem c5_en_fetch_result_witness :
    get_youtube_transcript
        { envFail with primaryEn := ApiOutcome.ok ["Hello", "world"] }
        "https://youtu.be/dQw4w9WgXcQ" =
      ([Step.cacheCheck, Step.primaryDefault, Step.primaryEn],
       Except.ok (specJoin ["Hello", "world"], "dQw4w9WgXcQ")) ∧
    Step.primaryListing ∉
      (get_youtube_transcript
        { envFail with primaryEn := ApiOutcome.ok ["Hello", "world"] }
        "https://youtu.be/dQw4w9WgXcQ").1 :=
  c5_en_fetch_result _ "https://youtu.be/dQw4w9WgXcQ" "dQw4w9WgXcQ" ["Hello", "world"]
    (by rfl) (by rfl) (by rfl) (by rfl)

/-! ### The mirror-tier quality threshold -/

/-- A mirror outcome the loop skips: transport error, non-200 status,
bad JSON, or extracted text that is empty or below 50 characters. -/
def mirrorRejected : MirrorOutcome → Bool
  | MirrorOutcome.ok t => t == "" || decide (t.length < 50)
  | _ => true

/-- The accepted text of the mirror loop does not depend on the
`last_error` accumulator. -/
theorem mirrorLoop_res_indep (l : List (String × MirrorOutcome))
    (le le' : Option String) :
    (mirrorLoop l le).2.1 = (mirrorLoop l le').2.1 := by
  induction l generalizing le le' with
  | nil => rfl
  | cons p rest ih =>
    obtain ⟨n, o⟩ := p
    cases o with
    | exn m => simpa [mirrorLoop] using ih (some m) (some m)
    | badStatus c => simpa [mirrorLoop] using ih le le'
    | badJson => simpa [mirrorLoop] using ih le le'
    | ok t =>
      by_cases hc : (t == "" || decide (t.length < 50)) = true
      · simpa [mirrorLoop, hc] using ih le le'
      · simp [mirrorLoop, hc]

/-- A rejected mirror never decides the loop's accepted text. -/
theorem mirrorLoop_skip_res {n : String} {o : MirrorOutcome}
    {rest : List (String × MirrorOutcome)} {le : Option String}
    (h : mirrorRejected o = true) :
    (mirrorLoop ((n, o) :: rest) le).2.1 = (mirrorLoop rest le).2.1 := by
  cases o with
  | exn m =>
    simp only [mirrorLoop]
    exact mirrorLoop_res_indep rest (some m) le
  | badStatus c => simp [mirrorLoop]
  | badJson => simp [mirrorLoop]
  | ok t =>
    have hc : (t == "" || decide (t.length < 50)) = true := by
      simpa [mirrorRejected] using h
    simp [mirrorLoop, hc]

/-- A mirror whose text clears the threshold stops the loop with that
text. -/
theorem mirrorLoop_accept {n t : String}
    {rest : List (String × MirrorOutcome)} {le : Option String}
    (h : mirrorRejected (MirrorOutcome.ok t) = false) :
    mirrorLoop ((n, MirrorOutcome.ok t) :: rest) le =
      ([Step.mirrorQuery n], some t, le) := by
  have hc : (t == "" || decide (t.length < 50)) = false := by
    simpa [mirrorRejected] using h
  simp [mirrorLoop, hc]

/-- **C4.** For every ordered mirror list in which every mirror before
some position is rejected, that position's mirror yields text shorter
than 50 characters, every mirror between it and a later one is
rejected, and the later mirror yields text of at least 50 characters,
the mirror loop's accepted result is the later mirror's text: a short
"success" is treated as a non-result and the cascade moves on. -/
theorem c4_short_mirror_skipped (l1 l2 rest : List (String × MirrorOutcome))
    (n1 n2 s t : String) (lastErr : Option String)
    (h1 : ∀ p ∈ l1, mirrorRejected p.2 = true)
    (h2 : ∀ p ∈ l2, mirrorRejected p.2 = true)
    (hs : s.length < 50)
    (ht : 50 ≤ t.length) :
    (mirrorLoop
        (l1 ++ ((n1, MirrorOutcome.ok s) :: (l2 ++ ((n2, MirrorOutcome.ok t) :: rest))))
        lastErr).2.1 = some t := by
  induction l1 generalizing lastErr with
  | cons p l1t ih =>
    obtain ⟨pn, po⟩ := p
    have hpo : mirrorRejected po = true := h1 (pn, po) (by simp)
    rw [List.cons_append, mirrorLoop_skip_res hpo]
    exact ih lastErr (fun q hq => h1 q (by simp [hq]))
  | nil =>
    rw [List.nil_append]
    have hss : mirrorRejected (MirrorOutcome.ok s) = true := by
      show (s == "" || decide (s.length < 50)) = true
      rw [decide_eq_true hs, Bool.or_true]
    rw [mirrorLoop_skip_res hss]
    clear h1
    induction l2 generalizing lastErr with
    | cons q l2t ih2 =>
      obtain ⟨qn, qo⟩ := q
      have hqo : mirrorRejected qo = true := h2 (qn, qo) (by simp)
      rw [List.cons_append, mirrorLoop_skip_res hqo]
      exact ih2 (fun r hr => h2 r (by simp [hr])) lastErr
    | nil =>
      rw [List.nil_append]
      have hacc : mirrorRejected (MirrorOutcome.ok t) = false := by
        show (t == "" || decide (t.length < 50)) = false
        have h50 : decide (t.length < 50) = false := by
          apply decide_eq_false
          omega
        have hne : (t == "") = false := by
          apply beq_eq_false_iff_ne.mpr
          intro h0
          rw [h0] at ht
          rw [String.length_empty] at ht
          omega
        rw [hne, h50]
        rfl
      rw [mirrorLoop_accept hacc]

/-- Length of a replicated-character string. -/
theorem length_mk_replicate (n : Nat) (c : Char) :
    (String.mk (List.replicate n c)).length = n := by
  show (List.replicate n c).length = n
  exact List.length_replicate n c

/-- Witness for C4: mirror #1 returns 40 characters, mirror #2 returns
200 characters; the loop's result is mirror #2's text. -/
theorem c4_short_mirror_skipped_witness :
    (mirrorLoop
        ([] ++ (("tube.demarches.tech", MirrorOutcome.ok (String.mk (List.replicate 40 'a'))) ::
          ([] ++ (("inv.bp.mutahar.rocks", MirrorOutcome.ok (String.mk (List.replicate 200 'b'))) :: []))))
        none).2.1 = some (String.mk (List.replicate 200 'b')) :=
  c4_short_mirror_skipped [] [] [] "tube.demarches.tech" "inv.bp.mutahar.rocks"
    (String.mk (List.replicate 40 'a')) (String.mk (List.replicate 200 'b')) none
    (by simp) (by simp) (by rw [length_mk_replicate]; omega) (by rw [length_mk_replicate]; omega)

/-! ### Error shapes: everything surfaced is a `ValueError` -/

/-- `extract_video_id` fails only with the `InvalidURL` `ValueError`. -/
theorem extract_err_shape {url : String} {e : PyErr}
    (h : extract_video_id url = Except.error e) :
    e = PyErr.valueError invalidUrlMsg := by
  unfold extract_video_id at h
  revert h
  cases extractPositional url.data with
  | some tok =>
    intro h
    dsimp only [] at h
    by_cases h11 : tok.length = 11
    · rw [if_pos h11] at h
      exact Except.noConfusion h
    · rw [if_neg h11] at h
      revert h
      cases regexSearch url.data with
      | some tok2 => intro h; exact Except.noConfusion h
      | none => intro h; injection h with h; exact h.symm
  | none =>
    intro h
    dsimp only [] at h
    revert h
    cases regexSearch url.data with
    | some tok2 => intro h; exact Except.noConfusion h
    | none => intro h; injection h with h; exact h.symm

/-- The cascade fails only with the line-478 exhaustion `ValueError`. -/
theorem cascade_err_shape {env : Env} {vid : String} {e : PyErr}
    (he : (cascade env vid).2 = Except.error e) :
    e = PyErr.valueError exhaustedMsg := by
  unfold cascade at he
  revert he
  cases hd : env.primaryDefault <;>
    first
    | (intro he; simp at he; done)
    | (cases he2 : env.primaryEn <;>
        first
        | (intro he; simp at he; done)
        | (cases he3 : env.primaryListing <;>
            first
            | (intro he; simp at he; done)
            | (cases hga : get_transcript_with_alternative_api env with
               | mk s r =>
                 cases r with
                 | ok t => intro he; simp at he
                 | error e2 =>
                   intro he
                   simp only [] at he
                   injection he with he
                   exact he.symm)))

/-- The orchestrator's body fails only with the `InvalidURL` or the
exhaustion `ValueError` — in particular never with a structural
`TranscriptsDisabled`/`NoTranscriptFound`, which the inner
`except Exception` arms have already swallowed. -/
theorem gytBody_err_shape {env : Env} {url : String} {e : PyErr}
    (h : (gytBody env url).2.2 = Except.error e) :
    e = PyErr.valueError invalidUrlMsg ∨ e = PyErr.valueError exhaustedMsg := by
  unfold gytBody at h
  revert h
  cases hx : extract_video_id url with
  | error e0 =>
    intro h
    dsimp only [] at h
    injection h with h
    subst h
    exact Or.inl (extract_err_shape hx)
  | ok vid =>
    dsimp only []
    cases hc : cacheLookup vid with
    | some t => intro h; simp at h
    | none =>
      cases hca : cascade env vid with
      | mk s r =>
        intro h
        dsimp only [] at h
        have hce : (cascade env vid).2 = Except.error e := by
          rw [hca]
          exact h
        exact Or.inr (cascade_err_shape hce)

/-- `get_youtube_transcript` fails only with the `InvalidURL` or the
exhaustion `ValueError` (the dedicated disabled/not-found messages of
the outer handlers are unreachable). -/
theorem gyt_err_shape {env : Env} {url : String} {e : PyErr}
    (h : (get_youtube_transcript env url).2 = Except.error e) :
    e = PyErr.valueError invalidUrlMsg ∨ e = PyErr.valueError exhaustedMsg := by
  unfold get_youtube_transcript at h
  revert h
  cases hb : gytBody env url with
  | mk v rest =>
    obtain ⟨s, res⟩ := rest
    cases res with
    | ok r => intro h; simp at h
    | error e0 =>
      have hshape : e0 = PyErr.valueError invalidUrlMsg ∨
          e0 = PyErr.valueError exhaustedMsg := by
        have hbe : (gytBody env url).2.2 = Except.error e0 := by rw [hb]
        exact gytBody_err_shape hbe
      cases e0 with
      | transcriptsDisabled => exact absurd hshape (by simp)
      | noTranscriptFound => exact absurd hshape (by simp)
      | otherExn m => exact absurd hshape (by simp)
      | valueError m =>
        intro h
        dsimp only [] at h
        injection h with h
        subst h
        exact hshape

/-! ### Structure of the alternative cascade -/

/-- The pytube tier performs exactly one fetch when the library is
available and none otherwise. -/
theorem pytube_steps (env : Env) :
    (get_transcript_with_pytube env).1 =
      if env.pytubeAvailable then [Step.pytubeFetch] else [] := by
  unfold get_transcript_with_pytube
  cases hpy : env.pytubeAvailable with
  | false => rfl
  | true =>
    rw [if_neg (show ¬(true = false) by simp)]
    cases hpt : env.pytubeParts with
    | error m => rfl
    | ok parts =>
      dsimp only []
      split <;> rfl

/-- The scraping tier performs exactly one page fetch when
BeautifulSoup is available and none otherwise. -/
theorem scrape_steps (env : Env) :
    (get_transcript_by_scraping env).1 =
      if env.bs4Available then [Step.scrapeFetch] else [] := by
  unfold get_transcript_by_scraping
  cases hbs : env.bs4Available with
  | false => rfl
  | true =>
    rw [if_neg (show ¬(true = false) by simp)]
    cases hsp : env.scrapePage with
    | error m => rfl
    | ok code =>
      dsimp only []
      split
      · rfl
      · split <;> split <;> rfl

/-- If every mirror is rejected, the loop accepts nothing. -/
theorem mirrorLoop_all_rejected (l : List (String × MirrorOutcome)) (le : Option String)
    (h : ∀ p ∈ l, mirrorRejected p.2 = true) :
    (mirrorLoop l le).2.1 = none := by
  induction l generalizing le with
  | nil => rfl
  | cons p rest ih =>
    obtain ⟨n, o⟩ := p
    have ho : mirrorRejected o = true := h (n, o) (by simp)
    rw [mirrorLoop_skip_res ho]
    exact ih le (fun q hq => h q (by simp [hq]))

/-- Conversely, if the loop accepts nothing, every mirror was rejected. -/
theorem mirrorLoop_none_rejected (l : List (String × MirrorOutcome)) (le : Option String)
    (h : (mirrorLoop l le).2.1 = none) :
    ∀ p ∈ l, mirrorRejected p.2 = true := by
  induction l generalizing le with
  | nil => intro p hp; simp at hp
  | cons p rest ih =>
    obtain ⟨n, o⟩ := p
    intro q hq
    by_cases ho : mirrorRejected o = true
    · rcases List.mem_cons.mp hq with hq1 | hq2
      · rw [hq1]; exact ho
      · rw [mirrorLoop_skip_res ho] at h
        exact ih le h q hq2
    · exfalso
      cases o with
      | exn m => exact ho rfl
      | badStatus c => exact ho rfl
      | badJson => exact ho rfl
      | ok t =>
        have hf : mirrorRejected (MirrorOutcome.ok t) = false := by
          cases hr : mirrorRejected (MirrorOutcome.ok t) with
          | true => exact absurd hr ho
          | false => rfl
        rw [mirrorLoop_accept hf] at h
        simp at h

/-- The mirror loop consults a subsequence of the descriptor list, in
order. -/
theorem mirrorLoop_steps_sublist (l : List (String × MirrorOutcome)) (le : Option String) :
    List.Sublist (mirrorLoop l le).1 (l.map (fun p => Step.mirrorQuery p.1)) := by
  induction l generalizing le with
  | nil => simp [mirrorLoop]
  | cons p rest ih =>
    obtain ⟨n, o⟩ := p
    cases o with
    | exn m =>
      simp only [mirrorLoop, List.map_cons]
      exact List.Sublist.cons₂ _ (ih (some m))
    | badStatus c =>
      simp only [mirrorLoop, List.map_cons]
      exact List.Sublist.cons₂ _ (ih le)
    | badJson =>
      simp only [mirrorLoop, List.map_cons]
      exact List.Sublist.cons₂ _ (ih le)
    | ok t =>
      by_cases hc : (t == "" || decide (t.length < 50)) = true
      · simp only [mirrorLoop, hc, if_true, List.map_cons]
        exact List.Sublist.cons₂ _ (ih le)
      · rw [mirrorLoop_accept (by simpa [mirrorRejected] using hc)]
        simp only [List.map_cons]
        exact List.Sublist.cons₂ _ (by simp)

/-- Decomposition of the alternative cascade's consultations: a pytube
part (when available), then a subsequence of the mirror descriptors in
order, then possibly the scraping fetch — which only happens after the
mirror loop accepted nothing. -/
theorem alt_api_decompose (env : Env) :
    ∃ ms ss,
      (get_transcript_with_alternative_api env).1 =
        (if env.pytubeAvailable then [Step.pytubeFetch] else []) ++ ms ++ ss ∧
      List.Sublist ms ((apisOf env).map (fun p => Step.mirrorQuery p.1)) ∧
      (ss = [] ∨ (ss = [Step.scrapeFetch] ∧ (mirrorLoop (apisOf env) none).2.1 = none)) := by
  unfold get_transcript_with_alternative_api
  cases hpy : env.pytubeAvailable with
  | true =>
    cases hpt : get_transcript_with_pytube env with
    | mk ps pr =>
      have hps : ps = [Step.pytubeFetch] := by
        have h2 := pytube_steps env
        rw [hpt, hpy] at h2
        simpa using h2
      subst hps
      cases pr with
      | ok t =>
        refine ⟨[], [], ?_, by simp, Or.inl rfl⟩
        simp
      | error e =>
        cases hml : mirrorLoop (apisOf env) none with
        | mk ms2 rest2 =>
          obtain ⟨mres, lerr⟩ := rest2
          cases mres with
          | some t2 =>
            refine ⟨ms2, [], ?_, ?_, Or.inl rfl⟩
            · simp
            · have := mirrorLoop_steps_sublist (apisOf env) none
              rw [hml] at this
              exact this
          | none =>
            cases hbs : env.bs4Available with
            | false =>
              refine ⟨ms2, [], ?_, ?_, Or.inl rfl⟩
              · simp
              · have := mirrorLoop_steps_sublist (apisOf env) none
                rw [hml] at this
                exact this
            | true =>
              cases hsc : get_transcript_by_scraping env with
              | mk ss2 sr =>
                have hss : ss2 = [Step.scrapeFetch] := by
                  have h3 := scrape_steps env
                  rw [hsc, hbs] at h3
                  simpa using h3
                subst hss
                have hsub : List.Sublist ms2
                    ((apisOf env).map (fun p => Step.mirrorQuery p.1)) := by
                  have := mirrorLoop_steps_sublist (apisOf env) none
                  rw [hml] at this
                  exact this
                have hnone : (mirrorLoop (apisOf env) none).2.1 = none := by
                  rw [hml]
                cases sr with
                | ok t3 =>
                  exact ⟨ms2, [Step.scrapeFetch], by simp, hsub, Or.inr ⟨rfl, rfl⟩⟩
                | error e3 =>
                  exact ⟨ms2, [Step.scrapeFetch], by simp, hsub, Or.inr ⟨rfl, rfl⟩⟩
  | false =>
    cases hml : mirrorLoop (apisOf env) none with
    | mk ms2 rest2 =>
      obtain ⟨mres, lerr⟩ := rest2
      have hsub : List.Sublist ms2
          ((apisOf env).map (fun p => Step.mirrorQuery p.1)) := by
        have := mirrorLoop_steps_sublist (apisOf env) none
        rw [hml] at this
        exact this
      cases mres with
      | some t2 => exact ⟨ms2, [], by simp, hsub, Or.inl rfl⟩
      | none =>
        cases hbs : env.bs4Available with
        | false => exact ⟨ms2, [], by simp, hsub, Or.inl rfl⟩
        | true =>
          cases hsc : get_transcript_by_scraping env with
          | mk ss2 sr =>
            have hss : ss2 = [Step.scrapeFetch] := by
              have h3 := scrape_steps env
              rw [hsc, hbs] at h3
              simpa using h3
            subst hss
            have hnone : (mirrorLoop (apisOf env) none).2.1 = none := by
              rw [hml]
            cases sr with
            | ok t3 =>
              exact ⟨ms2, [Step.scrapeFetch], by simp, hsub, Or.inr ⟨rfl, rfl⟩⟩
            | error e3 =>
              exact ⟨ms2, [Step.scrapeFetch], by simp, hsub, Or.inr ⟨rfl, rfl⟩⟩

/-- If pytube does not succeed, every mirror is rejected, and scraping
does not succeed, the whole alternative cascade raises its final
`ValueError`. -/
theorem alt_api_err_of_fails {env : Env}
    (hp : (get_transcript_with_pytube env).2.isOk = false)
    (hm : ∀ p ∈ apisOf env, mirrorRejected p.2 = true)
    (hsc : (get_transcript_by_scraping env).2.isOk = false) :
    ∃ m, (get_transcript_with_alternative_api env).2 =
      Except.error (PyErr.valueError m) := by
  unfold get_transcript_with_alternative_api
  have hmlnone : (mirrorLoop (apisOf env) none).2.1 = none :=
    mirrorLoop_all_rejected _ _ hm
  cases hpy : env.pytubeAvailable with
  | true =>
    cases hpt : get_transcript_with_pytube env with
    | mk ps pr =>
      cases pr with
      | ok t => rw [hpt] at hp; simp [Except.isOk, Except.toBool] at hp
      | error e =>
        cases hml : mirrorLoop (apisOf env) none with
        | mk ms2 rest2 =>
          obtain ⟨mres, lerr⟩ := rest2
          rw [hml] at hmlnone
          cases mres with
          | some t2 => simp at hmlnone
          | none =>
            cases hbs : env.bs4Available with
            | false => exact ⟨_, rfl⟩
            | true =>
              cases hsc2 : get_transcript_by_scraping env with
              | mk ss2 sr =>
                cases sr with
                | ok t3 => rw [hsc2] at hsc; simp [Except.isOk, Except.toBool] at hsc
                | error e3 => exact ⟨_, rfl⟩
  | false =>
    cases hml : mirrorLoop (apisOf env) none with
    | mk ms2 rest2 =>
      obtain ⟨mres, lerr⟩ := rest2
      rw [hml] at hmlnone
      cases mres with
      | some t2 => simp at hmlnone
      | none =>
        cases hbs : env.bs4Available with
        | false => exact ⟨_, rfl⟩
        | true =>
          cases hsc2 : get_transcript_by_scraping env with
          | mk ss2 sr =>
            cases sr with
            | ok t3 => rw [hsc2] at hsc; simp [Except.isOk, Except.toBool] at hsc
            | error e3 => exact ⟨_, rfl⟩

/-- **C1 amended.** For every environment and URL,
`get_youtube_transcript` surfaces only two error conditions — the
`InvalidURL` `ValueError` (no tiers attempted) and the
`AllSourcesExhausted` `ValueError` (after the full cascade) — and when
the identifier is valid but uncached and every tier fails (all three
primary sub-attempts, pytube, every mirror, and scraping), it raises
the exhaustion `ValueError`.  (The original claim's "never returns an
empty transcript" part is false: a primary-tier success with an empty
segment list is returned unchecked — see the counterexample.) -/
theorem c1_error_taxonomy_and_exhaustion (env : Env) (url : String) :
    (∀ e, (get_youtube_transcript env url).2 = Except.error e →
      e = PyErr.valueError invalidUrlMsg ∨ e = PyErr.valueError exhaustedMsg) ∧
    (∀ id, extract_video_id url = Except.ok id →
      cacheLookup id = none →
      env.primaryDefault.isOk = false →
      env.primaryEn.isOk = false →
      env.primaryListing.isOk = false →
      (get_transcript_with_pytube env).2.isOk = false →
      (∀ p ∈ apisOf env, mirrorRejected p.2 = true) →
      (get_transcript_by_scraping env).2.isOk = false →
      (get_youtube_transcript env url).2 =
        Except.error (PyErr.valueError exhaustedMsg)) := by
  constructor
  · intro e he
    exact gyt_err_shape he
  · intro id hx hc h0 h1 h2 hp hm hsc
    obtain ⟨m, halt⟩ := alt_api_err_of_fails hp hm hsc
    have hga : get_transcript_with_alternative_api env =
        ((get_transcript_with_alternative_api env).1,
         Except.error (PyErr.valueError m)) := by
      rw [← halt]
    have hcas := cascade_alt_err id h0 h1 h2 hga
    have hb := gytBody_cache_miss env hx hc
    rw [hcas] at hb
    have hg := gyt_pass_valueError hb
    rw [hg]

/-- An otherwise failing world in which the primary default fetch
"succeeds" with an empty segment list. -/
def envEmptyOk : Env := { envFail with primaryDefault := ApiOutcome.ok [] }

/-- **C1 counterexample.** The primary tier has no emptiness or quality
check: when the default fetch returns an empty segment list,
`get_youtube_transcript` returns the empty transcript to the caller
instead of raising — refuting "either raises an error or returns a
non-empty transcript". -/
theorem c1_empty_transcript_returned_cex :
    (get_youtube_transcript envEmptyOk "https://youtu.be/aaaaaaaaaaa").2 =
      Except.ok ("", "aaaaaaaaaaa") ∧
    ∀ e, (get_youtube_transcript envEmptyOk "https://youtu.be/aaaaaaaaaaa").2 ≠
      Except.error e := by
  refine ⟨by rfl, ?_⟩
  intro e h
  rw [show (get_youtube_transcript envEmptyOk "https://youtu.be/aaaaaaaaaaa").2 =
      Except.ok ("", "aaaaaaaaaaa") from rfl] at h
  exact Except.noConfusion h

/-- Witness for the amended C1: in the fully failing offline world with
a valid uncached id, the surfaced error is the exhaustion `ValueError`. -/
theorem c1_error_taxonomy_and_exhaustion_witness :
    (get_youtube_transcript envFail "https://youtu.be/aaaaaaaaaaa").2 =
      Except.error (PyErr.valueError exhaustedMsg) :=
  (c1_error_taxonomy_and_exhaustion envFail "https://youtu.be/aaaaaaaaaaa").2
    "aaaaaaaaaaa" (by rfl) (by rfl) (by rfl) (by rfl) (by rfl) (by rfl)
    (by intro p hp; fin_cases hp <;> rfl) (by rfl)

/-- A world in which the primary source reports `TranscriptsDisabled`
on every sub-attempt, and all alternative sources (mirrors, scraping)
fail. -/
def envDisabled : Env :=
  { envFail with
    primaryDefault := ApiOutcome.disabled
    primaryEn := ApiOutcome.disabled
    primaryListing := ApiOutcome.disabled
    bs4Available := true }

/-- **C6.** When the primary source reports `TranscriptsDisabled` at
every sub-attempt, the mirrors and scraping are indeed still attempted
(their steps appear in the trace), but the error finally surfaced is
the generic exhaustion `ValueError`, not the dedicated
"Transcripts are disabled…" message: the inner `except Exception` arms
(lines 417, 440, 465) catch `TranscriptsDisabled` before the outer
dedicated handler (line 480) ever can, so the disabled condition is not
identified to the caller. -/
theorem c6_disabled_condition_not_surfaced :
    get_youtube_transcript envDisabled "https://youtu.be/aaaaaaaaaaa" =
      ([Step.cacheCheck, Step.primaryDefault, Step.primaryEn, Step.primaryListing,
        Step.mirrorQuery "tube.demarches.tech", Step.mirrorQuery "inv.bp.mutahar.rocks",
        Step.mirrorQuery "vid.puffyan.us", Step.scrapeFetch],
       Except.error (PyErr.valueError exhaustedMsg)) ∧
    exhaustedMsg ≠ disabledMsg := by
  refine ⟨by rfl, ?_⟩
  intro h
  have h2 := congrArg String.length h
  simp [exhaustedMsg, disabledMsg, String.length] at h2

/-! ### Tier ordering -/

/-- The complete sequence of data-source consultations the code can
make, in the order it makes them. -/
def canonicalOrder : List Step :=
  [Step.cacheCheck, Step.primaryDefault, Step.primaryEn, Step.primaryListing,
   Step.pytubeFetch,
   Step.mirrorQuery "tube.demarches.tech", Step.mirrorQuery "inv.bp.mutahar.rocks",
   Step.mirrorQuery "vid.puffyan.us", Step.scrapeFetch]

/-- The claim's tier sequence: CacheCheck, Primary, Mirrors, Scraping —
with no other data source in between. -/
def claimOrder : List Step :=
  [Step.cacheCheck, Step.primaryDefault, Step.primaryEn, Step.primaryListing,
   Step.mirrorQuery "tube.demarches.tech", Step.mirrorQuery "inv.bp.mutahar.rocks",
   Step.mirrorQuery "vid.puffyan.us", Step.scrapeFetch]

/-- The orchestrator's trace and result after a cache miss are those of
the cascade (the outer handlers never fire). -/
theorem gyt_trace_cache_miss (env : Env) {url id : String}
    (hx : extract_video_id url = Except.ok id)
    (hc : cacheLookup id = none) :
    (get_youtube_transcript env url).1 = Step.cacheCheck :: (cascade env id).1 ∧
    (get_youtube_transcript env url).2 = (cascade env id).2 := by
  have hb := gytBody_cache_miss env hx hc
  cases hres : (cascade env id).2 with
  | ok r =>
    rw [hres] at hb
    have hg := gyt_pass_ok hb
    exact ⟨by rw [hg], by rw [hg]⟩
  | error e =>
    have he := cascade_err_shape hres
    subst he
    rw [hres] at hb
    have hg := gyt_pass_valueError hb
    exact ⟨by rw [hg], by rw [hg]⟩

/-- A successful ApiOutcome carries segments. -/
theorem ApiOutcome.isOk_eq_true {o : ApiOutcome} (h : o.isOk = true) :
    ∃ segs, o = ApiOutcome.ok segs := by
  cases o with
  | ok segs => exact ⟨segs, rfl⟩
  | disabled => simp [ApiOutcome.isOk] at h
  | notFound => simp [ApiOutcome.isOk] at h
  | exn m => simp [ApiOutcome.isOk] at h

/-- Steps of the cascade when all three primary sub-attempts fail. -/
theorem cascade_steps_all_fail {env : Env} {vid : String}
    (h0 : env.primaryDefault.isOk = false)
    (h1 : env.primaryEn.isOk = false)
    (h2 : env.primaryListing.isOk = false) :
    (cascade env vid).1 =
      Step.primaryDefault :: Step.primaryEn :: Step.primaryListing ::
        (get_transcript_with_alternative_api env).1 := by
  cases hga : get_transcript_with_alternative_api env with
  | mk s r =>
    cases r with
    | ok t => rw [cascade_alt_ok vid h0 h1 h2 hga]
    | error e => rw [cascade_alt_err vid h0 h1 h2 hga]

/-- **C2 amended.** After a successful extraction and a cache miss, the
consultation trace of `get_youtube_transcript` is a subsequence of the
canonical order CacheCheck → Primary (default, `en`, listing) → pytube
(when available) → Mirrors (in their fixed order) → Scraping; a mirror
is consulted only after all three primary sub-attempts failed, and
scraping is consulted only after, in addition, every mirror was
rejected.  (The original claim's "no other data source between Primary
and Mirrors" is false: the pytube fetch sits between them whenever the
pytube library is available — see the counterexample.) -/
theorem c2_tier_order (env : Env) (url id : String)
    (hx : extract_video_id url = Except.ok id)
    (hc : cacheLookup id = none) :
    List.Sublist (get_youtube_transcript env url).1 canonicalOrder ∧
    (∀ n, Step.mirrorQuery n ∈ (get_youtube_transcript env url).1 →
      env.primaryDefault.isOk = false ∧ env.primaryEn.isOk = false ∧
        env.primaryListing.isOk = false) ∧
    (Step.scrapeFetch ∈ (get_youtube_transcript env url).1 →
      (env.primaryDefault.isOk = false ∧ env.primaryEn.isOk = false ∧
        env.primaryListing.isOk = false) ∧
      ∀ p ∈ apisOf env, mirrorRejected p.2 = true) := by
  obtain ⟨htr, hres⟩ := gyt_trace_cache_miss env hx hc
  cases hok0 : env.primaryDefault.isOk with
  | true =>
    obtain ⟨segs, hd⟩ := ApiOutcome.isOk_eq_true hok0
    rw [cascade_default_ok id hd] at htr
    dsimp only [] at htr
    refine ⟨by rw [htr]; decide, ?_, ?_⟩
    · intro n hn; rw [htr] at hn; simp at hn
    · intro hn; rw [htr] at hn; simp at hn
  | false =>
    cases hok1 : env.primaryEn.isOk with
    | true =>
      obtain ⟨segs, hd⟩ := ApiOutcome.isOk_eq_true hok1
      rw [cascade_en_ok id hok0 hd] at htr
      dsimp only [] at htr
      refine ⟨by rw [htr]; decide, ?_, ?_⟩
      · intro n hn; rw [htr] at hn; simp at hn
      · intro hn; rw [htr] at hn; simp at hn
    | false =>
      cases hok2 : env.primaryListing.isOk with
      | true =>
        obtain ⟨segs, hd⟩ := ApiOutcome.isOk_eq_true hok2
        rw [cascade_listing_ok id hok0 hok1 hd] at htr
        dsimp only [] at htr
        refine ⟨by rw [htr]; decide, ?_, ?_⟩
        · intro n hn; rw [htr] at hn; simp at hn
        · intro hn; rw [htr] at hn; simp at hn
      | false =>
        rw [cascade_steps_all_fail hok0 hok1 hok2] at htr
        obtain ⟨ms, ss, heq, hsub, hss⟩ := alt_api_decompose env
        have hmap : (apisOf env).map (fun p => Step.mirrorQuery p.1) =
            [Step.mirrorQuery "tube.demarches.tech",
             Step.mirrorQuery "inv.bp.mutahar.rocks",
             Step.mirrorQuery "vid.puffyan.us"] := rfl
        refine ⟨?_, fun n _ => ⟨rfl, rfl, rfl⟩, ?_⟩
        · rw [htr, heq]
          show List.Sublist
            (Step.cacheCheck :: Step.primaryDefault :: Step.primaryEn ::
              Step.primaryListing ::
              ((if env.pytubeAvailable then [Step.pytubeFetch] else []) ++ ms ++ ss))
            (Step.cacheCheck :: Step.primaryDefault :: Step.primaryEn ::
              Step.primaryListing ::
              ([Step.pytubeFetch] ++
                ([Step.mirrorQuery "tube.demarches.tech",
                  Step.mirrorQuery "inv.bp.mutahar.rocks",
                  Step.mirrorQuery "vid.puffyan.us"] ++ [Step.scrapeFetch])))
          refine List.Sublist.cons₂ _ (List.Sublist.cons₂ _ (List.Sublist.cons₂ _
            (List.Sublist.cons₂ _ ?_)))
          rw [List.append_assoc]
          apply List.Sublist.append
          · cases env.pytubeAvailable with
            | true => simp
            | false => simp
          · apply List.Sublist.append
            · rw [← hmap]; exact hsub
            · rcases hss with h | ⟨h, _⟩
              · rw [h]; simp
              · rw [h]
        · intro hn
          refine ⟨⟨rfl, rfl, rfl⟩, ?_⟩
          rw [htr, heq] at hn
          simp only [List.mem_cons, List.mem_append] at hn
          have hnp : Step.scrapeFetch ∉
              (if env.pytubeAvailable then [Step.pytubeFetch] else []) := by
            cases env.pytubeAvailable with
            | true => simp
            | false => simp
          have hnm : Step.scrapeFetch ∉ ms := by
            intro hmem
            have := hsub.subset hmem
            rw [hmap] at this
            simp at this
          have hinss : Step.scrapeFetch ∈ ss := by
            rcases hn with h | h | h | h | h
            · exact absurd h (by simp)
            · exact absurd h (by simp)
            · exact absurd h (by simp)
            · exact absurd h (by simp)
            · rcases h with (h | h) | h
              · exact absurd h hnp
              · exact absurd h hnm
              · exact h
          rcases hss with h | ⟨_, hnone⟩
          · rw [h] at hinss; simp at hinss
          · exact mirrorLoop_none_rejected _ _ hnone

/-- An offline world in which pytube is available and succeeds. -/
def envPytubeOk : Env :=
  { envFail with
    pytubeAvailable := true
    pytubeParts := Except.ok [String.mk (List.replicate 60 'p')] }

/-- **C2 counterexample.** With the pytube library available, a call
whose primary attempts all fail consults the pytube fetcher between the
Primary tier and the Mirror tier: its step appears in the trace while
no mirror is ever queried, and the trace is not a subsequence of the
claim's tier order — refuting "no other data source is consulted
between the Primary tier and the Mirror tier". -/
theorem c2_pytube_between_primary_and_mirrors_cex :
    Step.pytubeFetch ∈
      (get_youtube_transcript envPytubeOk "https://youtu.be/aaaaaaaaaaa").1 ∧
    (∀ n, Step.mirrorQuery n ∉
      (get_youtube_transcript envPytubeOk "https://youtu.be/aaaaaaaaaaa").1) ∧
    ¬ List.Sublist (get_youtube_transcript envPytubeOk "https://youtu.be/aaaaaaaaaaa").1
        claimOrder := by
  have htr : (get_youtube_transcript envPytubeOk "https://youtu.be/aaaaaaaaaaa").1 =
      [Step.cacheCheck, Step.primaryDefault, Step.primaryEn, Step.primaryListing,
       Step.pytubeFetch] := by rfl
  refine ⟨by rw [htr]; decide, ?_, by rw [htr]; decide⟩
  intro n hn
  rw [htr] at hn
  simp at hn

/-- Witness for the amended C2, in the fully failing offline world. -/
theorem c2_tier_order_witness :
    List.Sublist (get_youtube_transcript envFail "https://youtu.be/aaaaaaaaaaa").1
      canonicalOrder ∧
    (∀ n, Step.mirrorQuery n ∈
        (get_youtube_transcript envFail "https://youtu.be/aaaaaaaaaaa").1 →
      envFail.primaryDefault.isOk = false ∧ envFail.primaryEn.isOk = false ∧
        envFail.primaryListing.isOk = false) ∧
    (Step.scrapeFetch ∈ (get_youtube_transcript envFail "https://youtu.be/aaaaaaaaaaa").1 →
      (envFail.primaryDefault.isOk = false ∧ envFail.primaryEn.isOk = false ∧
        envFail.primaryListing.isOk = false) ∧
      ∀ p ∈ apisOf envFail, mirrorRejected p.2 = true) :=
  c2_tier_order envFail "https://youtu.be/aaaaaaaaaaa" "aaaaaaaaaaa" (by rfl) (by rfl)

/-! ### The endpoint's user-contribution fallback -/

/-- The fold `if best.upvotes < x.upvotes then x else best` selects a
member with maximal upvotes. -/
theorem foldl_pick_spec (h : DbTranscript) (rest : List DbTranscript) :
    (rest.foldl (fun best x => if best.upvotes < x.upvotes then x else best) h) ∈ h :: rest ∧
    ∀ x ∈ h :: rest,
      x.upvotes ≤
        (rest.foldl (fun best x => if best.upvotes < x.upvotes then x else best) h).upvotes := by
  induction rest generalizing h with
  | nil =>
    refine ⟨by simp, ?_⟩
    intro x hx
    simp at hx
    rw [hx]
    exact le_refl _
  | cons y rest2 ih =>
    obtain ⟨ihmem, ihmax⟩ := ih (if h.upvotes < y.upvotes then y else h)
    simp only [List.foldl_cons]
    constructor
    · rcases List.mem_cons.mp ihmem with hh | ht
      · rw [hh]
        by_cases hlt : h.upvotes < y.upvotes
        · simp [hlt]
        · simp [hlt]
      · simp [List.mem_cons.mpr (Or.inr (List.mem_cons.mpr (Or.inr ht)))]
    · intro x hx
      rcases List.mem_cons.mp hx with hxh | hx2
      · subst hxh
        have hhead := ihmax _ (List.mem_cons_self _ _)
        by_cases hlt : x.upvotes < y.upvotes
        · rw [if_pos hlt] at hhead ⊢
          omega
        · rw [if_neg hlt] at hhead ⊢
          exact hhead
      · rcases List.mem_cons.mp hx2 with hxy | hx3
        · subst hxy
          have hhead := ihmax _ (List.mem_cons_self _ _)
          by_cases hlt : h.upvotes < x.upvotes
          · rw [if_pos hlt] at hhead ⊢
            exact hhead
          · rw [if_neg hlt] at hhead ⊢
            omega
        · exact ihmax _ (List.mem_cons_of_mem _ hx3)

/-- What `get_transcript_by_video_id` returns: an approved row for the
requested video with maximal upvotes among all such rows. -/
theorem get_transcript_by_video_id_spec (db : List DbTranscript) (vid : String)
    (dbt : DbTranscript) (h : get_transcript_by_video_id db vid = some dbt) :
    dbt ∈ db ∧ dbt.video_id = vid ∧ dbt.is_approved = true ∧
    ∀ x ∈ db, x.video_id = vid → x.is_approved = true → x.upvotes ≤ dbt.upvotes := by
  unfold get_transcript_by_video_id at h
  revert h
  cases hf : approvedFor db vid with
  | nil => intro h; exact Option.noConfusion h
  | cons hd rest =>
    intro h
    injection h with h
    obtain ⟨hmem, hmax⟩ := foldl_pick_spec hd rest
    rw [h] at hmem hmax
    have hmemf : dbt ∈ approvedFor db vid := by rw [hf]; exact hmem
    have hprops := List.mem_filter.mp hmemf
    have hp2 : dbt.video_id == vid ∧ dbt.is_approved := by
      simpa using hprops.2
    refine ⟨hprops.1, by simpa using hp2.1, by simpa using hp2.2, ?_⟩
    intro x hxdb hxv hxa
    have hxf : x ∈ approvedFor db vid := by
      apply List.mem_filter.mpr
      refine ⟨hxdb, ?_⟩
      simp [hxv, hxa]
    rw [hf] at hxf
    exact hmax x hxf

/-- **C10.** When `get_youtube_transcript` raises a `ValueError` for a
URL, the `/api/transcript` endpoint does not immediately surface it: it
re-derives an id with the separate, unvalidated split `videoIdDerive`
(not `extract_video_id`), serves the most-upvoted approved
user-contributed transcript for that id with `success = true` when the
database has one, and re-raises the original error only when none
exists. -/
theorem c10_endpoint_db_fallback (env : Env) (db : List DbTranscript)
    (url m : String)
    (herr : (get_youtube_transcript env url).2 = Except.error (PyErr.valueError m)) :
    (∀ dbt,
      get_transcript_by_video_id db (String.mk (videoIdDerive url.data)) = some dbt →
      fetch_transcript env db url =
        Except.ok ⟨true, dbt.transcript_text, String.mk (videoIdDerive url.data)⟩ ∧
      dbt.video_id = String.mk (videoIdDerive url.data) ∧
      dbt.is_approved = true ∧
      ∀ x ∈ db, x.video_id = String.mk (videoIdDerive url.data) →
        x.is_approved = true → x.upvotes ≤ dbt.upvotes) ∧
    (get_transcript_by_video_id db (String.mk (videoIdDerive url.data)) = none →
      fetch_transcript env db url = Except.error (PyErr.valueError m)) := by
  cases hgy : get_youtube_transcript env url with
  | mk s r =>
    rw [hgy] at herr
    dsimp only [] at herr
    subst herr
    constructor
    · intro dbt hdb
      obtain ⟨hmem, hvid, happ, hmax⟩ :=
        get_transcript_by_video_id_spec db _ dbt hdb
      refine ⟨?_, hvid, happ, hmax⟩
      unfold fetch_transcript
      rw [hgy]
      dsimp only []
      rw [hdb]
    · intro hnone
      unfold fetch_transcript
      rw [hgy]
      dsimp only []
      rw [hnone]

/-- A small contributions table: two approved rows (3 and 5 upvotes)
and an unapproved one with more upvotes. -/
def dbSample : List DbTranscript :=
  [⟨"r1", "dQw4w9WgXcQ", "user text one", 3, true⟩,
   ⟨"r2", "dQw4w9WgXcQ", "user text two", 5, true⟩,
   ⟨"r3", "dQw4w9WgXcQ", "unapproved", 9, false⟩]

/-- Witness for C10: in the offline world the watch URL fails with the
exhaustion error, the split-derived id is `dQw4w9WgXcQ`, and the
endpoint serves the 5-upvote approved contribution with success. -/
theorem c10_endpoint_db_fallback_witness :
    fetch_transcript envFail dbSample "https://www.youtube.com/watch?v=dQw4w9WgXcQ" =
      Except.ok ⟨true, ("user text two" : String),
        String.mk (videoIdDerive "https://www.youtube.com/watch?v=dQw4w9WgXcQ".data)⟩ ∧
    (⟨"r2", "dQw4w9WgXcQ", "user text two", 5, true⟩ : DbTranscript).is_approved = true :=
  ⟨((c10_endpoint_db_fallback envFail dbSample
      "https://www.youtube.com/watch?v=dQw4w9WgXcQ" exhaustedMsg (by rfl)).1
      ⟨"r2", "dQw4w9WgXcQ", "user text two", 5, true⟩ (by rfl)).1,
   rfl⟩

/-! ### Canonical URL shapes (C8) -/

/-- `"https://"`. -/
def httpsPre : List Char := ['h', 't', 't', 'p', 's', ':', '/', '/']

/-- `"https://www."`. -/
def wwwPre : List Char := httpsPre ++ ['w', 'w', 'w', '.']

/-- `"https://youtu.be/"`. -/
def preShortU : List Char := httpsPre ++ mShort

/-- `"https://www.youtube.com/watch?"` (everything before `v=`). -/
def preWatch30 : List Char := wwwPre ++ mWatch ++ ['?']

/-- `"https://www.youtube.com/watch?v="`. -/
def preWatchU : List Char := preWatch30 ++ mVeq

/-- `"https://www.youtube.com/embed/"`. -/
def preEmbedU : List Char := wwwPre ++ mEmbed

/-- Characters allowed in the optional query/parameter suffix of a
canonical URL (identifier characters plus the usual query syntax,
excluding `.` and `/`, which could fabricate a URL marker inside the
query). -/
def querySafe (c : Char) : Bool :=
  idChar c || c == '=' || c == '&' || c == '?' || c == '%' || c == '+'

/-- A pattern is not a prefix of a list whose `j`-th element differs. -/
theorem not_prefix_of_get {pat l : List Char} (j : Nat) (hj : j < pat.length)
    (hne : ∀ h : j < l.length, l.get ⟨j, h⟩ ≠ pat.get ⟨j, hj⟩) :
    ¬ pat.isPrefixOf l := by
  have h0 : ¬ pat.isPrefixOf (l.drop 0) := not_occ_at 0 j hj
    (by intro h; have := hne (by omega); simpa using this)
  simpa using h0

/-- A list is a prefix of itself followed by anything. -/
theorem isPrefixOf_append_self (l r : List Char) : l.isPrefixOf (l ++ r) = true := by
  rw [List.isPrefixOf_iff_prefix]
  exact List.prefix_append l r

/-- `subFind` locates a marker placed right after a prefix in which it
does not occur. -/
theorem subFind_marker_at (pre pat rest : List Char)
    (hnooc : ∀ m < pre.length, ¬ pat.isPrefixOf ((pre ++ (pat ++ rest)).drop m)) :
    subFind (pre ++ (pat ++ rest)) pat = some pre.length := by
  apply subFind_eq_some_of
  · rw [List.drop_left]
    exact isPrefixOf_append_self pat rest
  · exact hnooc

/-- A one-character pattern is no prefix of a list avoiding that
character. -/
theorem singleton_not_prefix {c : Char} {x : List Char} (h : ∀ y ∈ x, y ≠ c) :
    ¬ [c].isPrefixOf x := by
  cases x with
  | nil => simp [List.isPrefixOf]
  | cons a t =>
    simp only [List.isPrefixOf, List.isPrefixOf, Bool.and_true]
    intro he
    simp only [Bool.and_eq_true, beq_iff_eq] at he
    exact h a (by simp) he.symm

/-- `subFind` misses a one-character pattern absent from the list. -/
theorem subFind_singleton_none {l : List Char} {c : Char} (h : ∀ y ∈ l, y ≠ c) :
    subFind l [c] = none :=
  subFind_eq_none_of (fun m =>
    singleton_not_prefix (fun y hy => h y (List.drop_subset m l hy)))

/-- `clipTo` leaves a list alone when the separator is absent. -/
theorem clipTo_of_no_occ {l : List Char} {c : Char} (h : ∀ y ∈ l, y ≠ c) :
    clipTo l c = l := by
  unfold clipTo
  rw [subFind_singleton_none h]

/-- `subFind` finds the separator exactly at the boundary when the part
before it avoids the separator. -/
theorem subFind_singleton_boundary {id r : List Char} {c : Char}
    (hid : ∀ y ∈ id, y ≠ c) :
    subFind (id ++ c :: r) [c] = some id.length := by
  apply subFind_eq_some_of
  · rw [List.drop_left]
    simp [List.isPrefixOf]
  · intro m hm
    apply not_prefix_of_get 0 (by simp)
    intro h
    have hg : ((id ++ c :: r).drop m).get ⟨0, h⟩ = (id ++ c :: r).get
        ⟨m, by simp [List.length_append] at h ⊢; omega⟩ := by
      simp [List.get_eq_getElem, List.getElem_drop]
    rw [hg]
    have hgl : (id ++ c :: r).get
        ⟨m, by simp [List.length_append]; omega⟩ = id.get ⟨m, hm⟩ := by
      simp [List.get_eq_getElem]
      exact List.getElem_append_left hm
    rw [hgl]
    have := hid _ (List.get_mem id m hm)
    simpa using this

/-- `clipTo` cuts exactly at the boundary separator. -/
theorem clipTo_boundary {id r : List Char} {c : Char} (hid : ∀ y ∈ id, y ≠ c) :
    clipTo (id ++ c :: r) c = id := by
  unfold clipTo
  rw [subFind_singleton_boundary hid]
  dsimp only []
  rw [List.take_left]

/-- Every element at or past the prefix avoids `c` when the suffix
does. -/
theorem get_append_right_ne (pre v : List Char) (c : Char)
    (hv : ∀ x ∈ v, x ≠ c) :
    ∀ i, ∀ h : i < (pre ++ v).length, pre.length ≤ i →
      (pre ++ v).get ⟨i, h⟩ ≠ c := by
  intro i h hge
  have hg : (pre ++ v).get ⟨i, h⟩ = v.get
      ⟨i - pre.length, by simp [List.length_append] at h; omega⟩ := by
    simp [List.get_eq_getElem]
    exact List.getElem_append_right hge
  rw [hg]
  exact hv _ (List.get_mem v _ _)

/-- A character satisfying a predicate differs from one falsifying it. -/
theorem mem_ne_of_pred {P : Char → Bool} {l : List Char}
    (h : ∀ c ∈ l, P c = true) {d : Char} (hd : P d = false) :
    ∀ x ∈ l, x ≠ d := by
  intro x hx he
  subst he
  rw [h x hx] at hd
  exact Bool.noConfusion hd

/-- A forbidden character absent from both parts is absent from
`id ++ sep :: r`. -/
theorem append_cons_ne {id r : List Char} {sep d : Char}
    (h1 : ∀ x ∈ id, x ≠ d) (hs : sep ≠ d) (h2 : ∀ x ∈ r, x ≠ d) :
    ∀ x ∈ id ++ sep :: r, x ≠ d := by
  intro x hx
  rcases List.mem_append.mp hx with h | h
  · exact h1 x h
  · rcases List.mem_cons.mp h with h | h
    · rw [h]; exact hs
    · exact h2 x h

/-- In a canonical short-link URL the `youtu.be/` marker sits at index 8. -/
theorem short_find_mShort (tail : List Char) :
    subFind (preShortU ++ tail) mShort = some 8 := by
  have he : preShortU ++ tail = httpsPre ++ (mShort ++ tail) := by
    simp [preShortU, List.append_assoc]
  rw [he]
  exact subFind_marker_at httpsPre mShort tail (by
    intro m hm
    have hm8 : m < 8 := hm
    interval_cases m <;>
      (simp only [httpsPre, mShort, List.cons_append, List.nil_append,
        List.drop_succ_cons, List.drop_zero]
       exact not_prefix_of_get 0 (by decide) (fun h => by simp)))

/-- A canonical watch URL contains no `youtu.be/`. -/
theorem watch_no_mShort (tail : List Char) (hdot : ∀ x ∈ tail, x ≠ '.') :
    subFind (preWatchU ++ tail) mShort = none := by
  apply subFind_eq_none_of
  apply no_occ_of_forbidden (show 5 < mShort.length by decide)
    (show mShort.get ⟨5, by decide⟩ = '.' from rfl) 32
  · intro i h hi
    exact get_append_right_ne preWatchU tail '.' hdot i h hi
  · intro m hm
    have hm27 : m < 27 := by omega
    interval_cases m <;>
      (simp only [preWatchU, preWatch30, wwwPre, httpsPre, mWatch, mVeq, mShort,
        List.cons_append, List.nil_append, List.append_assoc,
        List.drop_succ_cons, List.drop_zero]
       first
       | (apply not_prefix_of_get 0 (by decide); intro h; simp; (try decide); done)
       | (apply not_prefix_of_get 5 (by decide); intro h; simp; (try decide); done))

/-- In a canonical watch URL the `youtube.com/watch` marker sits at 12. -/
theorem watch_find_mWatch (tail : List Char) :
    subFind (preWatchU ++ tail) mWatch = some 12 := by
  have he : preWatchU ++ tail = wwwPre ++ (mWatch ++ ('?' :: (mVeq ++ tail))) := by
    simp [preWatchU, preWatch30, wwwPre, List.append_assoc]
  rw [he]
  exact subFind_marker_at wwwPre mWatch ('?' :: (mVeq ++ tail)) (by
    intro m hm
    have hm12 : m < 12 := hm
    interval_cases m <;>
      (simp only [wwwPre, httpsPre, mWatch, mVeq, List.cons_append, List.nil_append,
        List.drop_succ_cons, List.drop_zero]
       exact not_prefix_of_get 0 (by decide) (fun h => by simp)))

/-- In a canonical watch URL the `v=` marker sits at index 30. -/
theorem watch_find_mVeq (tail : List Char) :
    subFind (preWatchU ++ tail) mVeq = some 30 := by
  have he : preWatchU ++ tail = preWatch30 ++ (mVeq ++ tail) := by
    simp [preWatchU, List.append_assoc]
  rw [he]
  exact subFind_marker_at preWatch30 mVeq tail (by
    intro m hm
    have hm30 : m < 30 := hm
    interval_cases m <;>
      (simp only [preWatch30, wwwPre, httpsPre, mWatch, mVeq, List.cons_append,
        List.nil_append, List.append_assoc, List.drop_succ_cons, List.drop_zero]
       exact not_prefix_of_get 0 (by decide) (fun h => by simp)))

/-- A canonical embed URL contains no `youtu.be/`. -/
theorem embed_no_mShort (tail : List Char) (hdot : ∀ x ∈ tail, x ≠ '.') :
    subFind (preEmbedU ++ tail) mShort = none := by
  apply subFind_eq_none_of
  apply no_occ_of_forbidden (show 5 < mShort.length by decide)
    (show mShort.get ⟨5, by decide⟩ = '.' from rfl) 30
  · intro i h hi
    exact get_append_right_ne preEmbedU tail '.' hdot i h hi
  · intro m hm
    have hm25 : m < 25 := by omega
    interval_cases m <;>
      (simp only [preEmbedU, wwwPre, httpsPre, mEmbed, mShort,
        List.cons_append, List.nil_append, List.append_assoc,
        List.drop_succ_cons, List.drop_zero]
       first
       | (apply not_prefix_of_get 0 (by decide); intro h; simp; (try decide); done)
       | (apply not_prefix_of_get 5 (by decide); intro h; simp; (try decide); done))

/-- A canonical embed URL contains no `youtube.com/watch`. -/
theorem embed_no_mWatch (tail : List Char) (hdot : ∀ x ∈ tail, x ≠ '.') :
    subFind (preEmbedU ++ tail) mWatch = none := by
  apply subFind_eq_none_of
  apply no_occ_of_forbidden (show 7 < mWatch.length by decide)
    (show mWatch.get ⟨7, by decide⟩ = '.' from rfl) 30
  · intro i h hi
    exact get_append_right_ne preEmbedU tail '.' hdot i h hi
  · intro m hm
    have hm23 : m < 23 := by omega
    interval_cases m <;>
      (simp only [preEmbedU, wwwPre, httpsPre, mEmbed, mWatch,
        List.cons_append, List.nil_append, List.append_assoc,
        List.drop_succ_cons, List.drop_zero]
       first
       | (apply not_prefix_of_get 0 (by decide); intro h; simp; (try decide); done)
       | (apply not_prefix_of_get 12 (by decide); intro h; simp; (try decide); done))

/-- In a canonical embed URL the `youtube.com/embed/` marker sits at 12. -/
theorem embed_find_mEmbed (tail : List Char) :
    subFind (preEmbedU ++ tail) mEmbed = some 12 := by
  have he : preEmbedU ++ tail = wwwPre ++ (mEmbed ++ tail) := by
    simp [preEmbedU, List.append_assoc]
  rw [he]
  exact subFind_marker_at wwwPre mEmbed tail (by
    intro m hm
    have hm12 : m < 12 := hm
    interval_cases m <;>
      (simp only [wwwPre, httpsPre, mEmbed, List.cons_append, List.nil_append,
        List.drop_succ_cons, List.drop_zero]
       exact not_prefix_of_get 0 (by decide) (fun h => by simp)))

/-- The positional parse of a canonical short-link URL takes everything
after `youtu.be/` up to the first `?`. -/
theorem short_positional (tail : List Char) :
    extractPositional (preShortU ++ tail) = some (clipTo tail '?') := by
  unfold extractPositional
  rw [short_find_mShort tail]
  dsimp only []
  rw [show 8 + mShort.length = preShortU.length from rfl, List.drop_left]

/-- The positional parse of a canonical watch URL takes everything after
the first `v=` up to the first `&`. -/
theorem watch_positional (tail : List Char) (hdot : ∀ x ∈ tail, x ≠ '.') :
    extractPositional (preWatchU ++ tail) = some (clipTo tail '&') := by
  unfold extractPositional
  rw [watch_no_mShort tail hdot]
  dsimp only []
  rw [watch_find_mWatch tail, watch_find_mVeq tail]
  dsimp only []
  rw [show 30 + mVeq.length = preWatchU.length from rfl, List.drop_left]

/-- The positional parse of a canonical embed URL takes everything after
`embed/` up to the first `?`. -/
theorem embed_positional (tail : List Char) (hdot : ∀ x ∈ tail, x ≠ '.') :
    extractPositional (preEmbedU ++ tail) = some (clipTo tail '?') := by
  unfold extractPositional
  rw [embed_no_mShort tail hdot]
  dsimp only []
  rw [embed_no_mWatch tail hdot]
  cases hv : subFind (preEmbedU ++ tail) mVeq <;>
    (dsimp only []
     rw [embed_find_mEmbed tail]
     dsimp only []
     rw [show 12 + mEmbed.length = preEmbedU.length from rfl, List.drop_left])

/-- `extract_video_id` succeeds on an 11-character positional token. -/
theorem extract_of_positional {url : String} {id : List Char}
    (hpos : extractPositional url.data = some id) (hlen : id.length = 11) :
    extract_video_id url = Except.ok (String.mk id) := by
  unfold extract_video_id
  rw [hpos]
  dsimp only []
  rw [if_pos hlen]

/-- **C8.** For each of the three canonical URL shapes — short-link
(`https://youtu.be/ID`, optionally followed by `?query`), watch
(`https://www.youtube.com/watch?v=ID`, optionally followed by
`&params`), and embed (`https://www.youtube.com/embed/ID`, optionally
followed by `?query`) — containing a valid 11-character token drawn
from the identifier character class, with any query suffix drawn from
the usual query characters, `extract_video_id` returns that exact
token unchanged. -/
theorem c8_canonical_shapes (id q p : List Char)
    (hlen : id.length = 11)
    (hid : ∀ c ∈ id, idChar c = true)
    (hq : ∀ c ∈ q, querySafe c = true)
    (hp : ∀ c ∈ p, querySafe c = true) :
    extract_video_id (String.mk (preShortU ++ id)) = Except.ok (String.mk id) ∧
    extract_video_id (String.mk (preShortU ++ (id ++ '?' :: q))) = Except.ok (String.mk id) ∧
    extract_video_id (String.mk (preWatchU ++ id)) = Except.ok (String.mk id) ∧
    extract_video_id (String.mk (preWatchU ++ (id ++ '&' :: p))) = Except.ok (String.mk id) ∧
    extract_video_id (String.mk (preEmbedU ++ id)) = Except.ok (String.mk id) ∧
    extract_video_id (String.mk (preEmbedU ++ (id ++ '?' :: q))) = Except.ok (String.mk id) := by
  have hidQ : ∀ x ∈ id, x ≠ '?' := mem_ne_of_pred hid (by decide)
  have hidA : ∀ x ∈ id, x ≠ '&' := mem_ne_of_pred hid (by decide)
  have hidD : ∀ x ∈ id, x ≠ '.' := mem_ne_of_pred hid (by decide)
  have hqD : ∀ x ∈ q, x ≠ '.' := mem_ne_of_pred hq (by decide)
  have hpD : ∀ x ∈ p, x ≠ '.' := mem_ne_of_pred hp (by decide)
  have hQ : ∀ x ∈ id ++ '?' :: q, x ≠ '.' := append_cons_ne hidD (by decide) hqD
  have hA : ∀ x ∈ id ++ '&' :: p, x ≠ '.' := append_cons_ne hidD (by decide) hpD
  refine ⟨?_, ?_, ?_, ?_, ?_, ?_⟩
  · refine extract_of_positional ?_ hlen
    show extractPositional (preShortU ++ id) = some id
    rw [short_positional id, clipTo_of_no_occ hidQ]
  · refine extract_of_positional ?_ hlen
    show extractPositional (preShortU ++ (id ++ '?' :: q)) = some id
    rw [short_positional (id ++ '?' :: q), clipTo_boundary hidQ]
  · refine extract_of_positional ?_ hlen
    show extractPositional (preWatchU ++ id) = some id
    rw [watch_positional id hidD, clipTo_of_no_occ hidA]
  · refine extract_of_positional ?_ hlen
    show extractPositional (preWatchU ++ (id ++ '&' :: p)) = some id
    rw [watch_positional (id ++ '&' :: p) hA, clipTo_boundary hidA]
  · refine extract_of_positional ?_ hlen
    show extractPositional (preEmbedU ++ id) = some id
    rw [embed_positional id hidD, clipTo_of_no_occ hidQ]
  · refine extract_of_positional ?_ hlen
    show extractPositional (preEmbedU ++ (id ++ '?' :: q)) = some id
    rw [embed_positional (id ++ '?' :: q) hQ, clipTo_boundary hidQ]

/-- C8 witness: the three canonical shapes, with and without query
suffixes, at the concrete identifier dQw4w9WgXcQ. -/
theorem c8_canonical_shapes_witness :
    extract_video_id (String.mk (preShortU ++ "dQw4w9WgXcQ".data)) =
      Except.ok (String.mk "dQw4w9WgXcQ".data) ∧
    extract_video_id (String.mk (preShortU ++ ("dQw4w9WgXcQ".data ++ '?' :: "rel=0".data))) =
      Except.ok (String.mk "dQw4w9WgXcQ".data) ∧
    extract_video_id (String.mk (preWatchU ++ "dQw4w9WgXcQ".data)) =
      Except.ok (String.mk "dQw4w9WgXcQ".data) ∧
    extract_video_id (String.mk (preWatchU ++ ("dQw4w9WgXcQ".data ++ '&' :: "t=42s".data))) =
      Except.ok (String.mk "dQw4w9WgXcQ".data) ∧
    extract_video_id (String.mk (preEmbedU ++ "dQw4w9WgXcQ".data)) =
      Except.ok (String.mk "dQw4w9WgXcQ".data) ∧
    extract_video_id (String.mk (preEmbedU ++ ("dQw4w9WgXcQ".data ++ '?' :: "rel=0".data))) =
      Except.ok (String.mk "dQw4w9WgXcQ".data) :=
  c8_canonical_shapes "dQw4w9WgXcQ".data "rel=0".data "t=42s".data
    (by decide) (by decide) (by decide) (by decide)
